import Mathlib

set_option maxHeartbeats 1000000

/-- Python-level values as produced by json.load on the benchmark result
files consumed by data_parsers.py. Numbers are modelled as integers: every
numeric value exercised by the verified properties is integer-valued and no
floating-point rounding behaviour is load-bearing in the parser (the only
float construction, float(rate), is exact on integer rates). -/
inductive PyVal where
  | none
  | bool (b : Bool)
  | int (n : Int)
  | str (s : String)
  | list (xs : List PyVal)
  | dict (xs : List (String × PyVal))

/-- Python exceptions that can escape the parsing helpers of
data_parsers.py. -/
inductive PErr where
  | attributeError
  | typeError
  | valueError
  | keyError
deriving DecidableEq, Repr

mutual

/-- Structural equality test on values, backing the DecidableEq instance. -/
def pyValBEq : PyVal → PyVal → Bool
  | .none, .none => true
  | .bool a, .bool b => a == b
  | .int a, .int b => a == b
  | .str a, .str b => a == b
  | .list a, .list b => pyValListBEq a b
  | .dict a, .dict b => pyValDictBEq a b
  | _, _ => false

/-- Elementwise equality test for value lists. -/
def pyValListBEq : List PyVal → List PyVal → Bool
  | [], [] => true
  | a :: as1, b :: bs1 => pyValBEq a b && pyValListBEq as1 bs1
  | _, _ => false

/-- Elementwise equality test for key/value lists. -/
def pyValDictBEq : List (String × PyVal) → List (String × PyVal) → Bool
  | [], [] => true
  | (k1, v1) :: as1, (k2, v2) :: bs1 =>
      k1 == k2 && pyValBEq v1 v2 && pyValDictBEq as1 bs1
  | _, _ => false

end

mutual

/-- The equality test is reflexive. -/
theorem pyValBEq_refl : ∀ a : PyVal, pyValBEq a a = true
  | .none => rfl
  | .bool a => by simp [pyValBEq]
  | .int a => by simp [pyValBEq]
  | .str a => by simp [pyValBEq]
  | .list a => by simp [pyValBEq, pyValListBEq_refl a]
  | .dict a => by simp [pyValBEq, pyValDictBEq_refl a]

/-- Reflexivity for value lists. -/
theorem pyValListBEq_refl : ∀ xs : List PyVal, pyValListBEq xs xs = true
  | [] => rfl
  | a :: as1 => by simp [pyValListBEq, pyValBEq_refl a, pyValListBEq_refl as1]

/-- Reflexivity for key/value lists. -/
theorem pyValDictBEq_refl : ∀ xs : List (String × PyVal), pyValDictBEq xs xs = true
  | [] => rfl
  | (k, v) :: as1 => by
      simp [pyValDictBEq, pyValBEq_refl v, pyValDictBEq_refl as1]

end

mutual

/-- The equality test is sound. -/
theorem pyValBEq_eq : ∀ a b : PyVal, pyValBEq a b = true → a = b
  | .none, .none, _ => rfl
  | .bool a, .bool b, h => by simpa [pyValBEq] using h
  | .int a, .int b, h => by simpa [pyValBEq] using h
  | .str a, .str b, h => by simpa [pyValBEq] using h
  | .list a, .list b, h => by
      simp only [pyValBEq] at h
      exact congrArg PyVal.list (pyValListBEq_eq a b h)
  | .dict a, .dict b, h => by
      simp only [pyValBEq] at h
      exact congrArg PyVal.dict (pyValDictBEq_eq a b h)
  | .none, .bool _, h => by simp [pyValBEq] at h
  | .none, .int _, h => by simp [pyValBEq] at h
  | .none, .str _, h => by simp [pyValBEq] at h
  | .none, .list _, h => by simp [pyValBEq] at h
  | .none, .dict _, h => by simp [pyValBEq] at h
  | .bool _, .none, h => by simp [pyValBEq] at h
  | .bool _, .int _, h => by simp [pyValBEq] at h
  | .bool _, .str _, h => by simp [pyValBEq] at h
  | .bool _, .list _, h => by simp [pyValBEq] at h
  | .bool _, .dict _, h => by simp [pyValBEq] at h
  | .int _, .none, h => by simp [pyValBEq] at h
  | .int _, .bool _, h => by simp [pyValBEq] at h
  | .int _, .str _, h => by simp [pyValBEq] at h
  | .int _, .list _, h => by simp [pyValBEq] at h
  | .int _, .dict _, h => by simp [pyValBEq] at h
  | .str _, .none, h => by simp [pyValBEq] at h
  | .str _, .bool _, h => by simp [pyValBEq] at h
  | .str _, .int _, h => by simp [pyValBEq] at h
  | .str _, .list _, h => by simp [pyValBEq] at h
  | .str _, .dict _, h => by simp [pyValBEq] at h
  | .list _, .none, h => by simp [pyValBEq] at h
  | .list _, .bool _, h => by simp [pyValBEq] at h
  | .list _, .int _, h => by simp [pyValBEq] at h
  | .list _, .str _, h => by simp [pyValBEq] at h
  | .list _, .dict _, h => by simp [pyValBEq] at h
  | .dict _, .none, h => by simp [pyValBEq] at h
  | .dict _, .bool _, h => by simp [pyValBEq] at h
  | .dict _, .int _, h => by simp [pyValBEq] at h
  | .dict _, .str _, h => by simp [pyValBEq] at h
  | .dict _, .list _, h => by simp [pyValBEq] at h

/-- Soundness for value lists. -/
theorem pyValListBEq_eq : ∀ xs ys : List PyVal, pyValListBEq xs ys = true → xs = ys
  | [], [], _ => rfl
  | a :: as1, b :: bs1, h => by
      simp only [pyValListBEq, Bool.and_eq_true] at h
      rw [pyValBEq_eq a b h.1, pyValListBEq_eq as1 bs1 h.2]
  | [], _ :: _, h => by simp [pyValListBEq] at h
  | _ :: _, [], h => by simp [pyValListBEq] at h

/-- Soundness for key/value lists. -/
theorem pyValDictBEq_eq :
    ∀ xs ys : List (String × PyVal), pyValDictBEq xs ys = true → xs = ys
  | [], [], _ => rfl
  | (k1, v1) :: as1, (k2, v2) :: bs1, h => by
      simp only [pyValDictBEq, Bool.and_eq_true, beq_iff_eq] at h
      rw [h.1.1, pyValBEq_eq v1 v2 h.1.2, pyValDictBEq_eq as1 bs1 h.2]
  | [], _ :: _, h => by simp [pyValDictBEq] at h
  | _ :: _, [], h => by simp [pyValDictBEq] at h

end

deriving instance DecidableEq for Except

instance : DecidableEq PyVal := fun a b =>
  if h : pyValBEq a b = true then
    Decidable.isTrue (pyValBEq_eq a b h)
  else
    Decidable.isFalse (fun he => h (he ▸ pyValBEq_refl a))

/-- Python truthiness, bool(v), for the value shapes above. -/
def PyVal.truthy : PyVal → Bool
  | .none => false
  | .bool b => b
  | .int n => n != 0
  | .str s => s != ""
  | .list xs => !xs.isEmpty
  | .dict xs => !xs.isEmpty

/-- First-match association lookup modelling Python dict indexing (keys of a
decoded-JSON dict are unique, so first-match agrees with dict semantics). -/
def pyLookup : List (String × PyVal) → String → Option PyVal
  | [], _ => Option.none
  | (k, v) :: rest, key => if k = key then some v else pyLookup rest key

/-- Python dict assignment d[k] = v: replace the existing binding in place if
the key is present, otherwise append (insertion order preserved). -/
def dictSet : List (String × PyVal) → String → PyVal → List (String × PyVal)
  | [], k, v => [(k, v)]
  | (k1, v1) :: rest, k, v =>
      if k1 = k then (k, v) :: rest else (k1, v1) :: dictSet rest k v

/-- The expression v.get(key, dflt): attribute access .get on a non-dict
value raises AttributeError. -/
def PyVal.getD (v : PyVal) (key : String) (dflt : PyVal) : Except PErr PyVal :=
  match v with
  | .dict d => .ok ((pyLookup d key).getD dflt)
  | _ => .error .attributeError

/-- Numeric view of a value: Python treats bool as a numeric subtype. -/
def PyVal.toNum : PyVal → Option Int
  | .bool b => some (if b then 1 else 0)
  | .int n => some n
  | _ => Option.none

/-- Python equality (==) as used by this code: numeric values compare by
value across bool/int; every other comparison the code performs is between
scalars and is modelled structurally. -/
def pyEq (a b : PyVal) : Bool :=
  match a.toNum, b.toNum with
  | some m, some n => m == n
  | some _, Option.none => false
  | Option.none, some _ => false
  | Option.none, Option.none => a == b

/-- The comparison v > 0: comparing a non-numeric value against an int
raises TypeError in Python 3. -/
def pyGtZero (v : PyVal) : Except PErr Bool :=
  match v.toNum with
  | some n => .ok (decide (0 < n))
  | Option.none => .error .typeError

/-- The subtraction a - b on numbers, TypeError otherwise. -/
def pySub (a b : PyVal) : Except PErr PyVal :=
  match a.toNum, b.toNum with
  | some m, some n => .ok (.int (m - n))
  | _, _ => .error .typeError

/-- Exception-propagating sequencing for the Except values the models below
produce; written out explicitly so that every model is a plain match tree. -/
def pyBind {α β : Type} (x : Except PErr α) (f : α → Except PErr β) : Except PErr β :=
  match x with
  | .ok a => f a
  | .error e => .error e

/-- Decimal digits of an ASCII digit string, as int(s) computes them. -/
def digitsToNat (cs : List Char) : Nat :=
  cs.foldl (fun n c => n * 10 + (c.toNat - 48)) 0

/-- Python str.isdigit restricted to ASCII digits (the only digits the
benchmark files contain): nonempty and all characters are digits. -/
def isDigitStrChars (cs : List Char) : Bool :=
  !cs.isEmpty && cs.all (fun c => c.isDigit)

/-- An optionally signed integer literal, the subset of float(str) inputs
this program can produce from its own files. -/
def intLiteralOfChars : List Char → Option Int
  | c :: rest =>
      if c = '-' then
        if isDigitStrChars rest then some (-(digitsToNat rest : Int)) else Option.none
      else
        if isDigitStrChars (c :: rest) then some (digitsToNat (c :: rest)) else Option.none
  | [] => Option.none

/-- Models float(v) for the shapes the parser can feed it: ints and bools
convert exactly (kept as integers per the PyVal note), integer-literal
strings parse, any other string raises ValueError, non-numeric non-string
values raise TypeError. Fractional literals are outside the modelled subset;
no verified property involves them. -/
def pyFloat (v : PyVal) : Except PErr PyVal :=
  match v with
  | .int n => .ok (.int n)
  | .bool b => .ok (.int (if b then 1 else 0))
  | .str s =>
      match intLiteralOfChars s.data with
      | some n => .ok (.int n)
      | Option.none => .error .valueError
  | _ => .error .typeError

/-- Helper of splitChar carrying the accumulator of the current piece. -/
def splitCharAux (sep : Char) : List Char → List Char → List String
  | [], acc => [String.mk acc.reverse]
  | c :: rest, acc =>
      if c = sep then String.mk acc.reverse :: splitCharAux sep rest []
      else splitCharAux sep rest (c :: acc)

/-- Python s.split(sep) for a one-character separator: split at every
occurrence keeping empty pieces, so the empty string gives one empty piece. -/
def splitChar (s : String) (sep : Char) : List String :=
  splitCharAux sep s.data []

/-- Python s.split(sep, 1): split at the first occurrence only. Callers in
the source guard it with a containment test (sep in s). -/
def splitFirstAux (sep : Char) : List Char → List Char → String × String
  | [], acc => (String.mk acc.reverse, "")
  | c :: rest, acc =>
      if c = sep then (String.mk acc.reverse, String.mk rest)
      else splitFirstAux sep rest (c :: acc)

/-- Leading-characters test on char lists, backing str.startswith. -/
def charsLead : List Char → List Char → Bool
  | [], _ => true
  | _ :: _, [] => false
  | p :: ps, c :: cs => p == c && charsLead ps cs

/-- Python s.startswith(pat). -/
def strStarts (s pat : String) : Bool :=
  charsLead pat.data s.data

/-- Python s.endswith(pat). -/
def strEnds (s pat : String) : Bool :=
  charsLead pat.data.reverse s.data.reverse

/-- Consume leading whitespace (space, tab, newline, carriage return), shared
by the json.loads and ast.literal_eval models. -/
def jsonWs : List Char → List Char
  | c :: rest =>
      if c == ' ' || c == Char.ofNat 9 || c == Char.ofNat 10 || c == Char.ofNat 13 then
        jsonWs rest
      else c :: rest
  | [] => []

/-- Read the remaining characters of a quoted string literal up to the
closing quote q; escape sequences are outside the modelled subset and are
mapped to the failure path. -/
def quotedStrAux (q : Char) : List Char → List Char → Option (String × List Char)
  | [], _ => Option.none
  | c :: rest, acc =>
      if c == q then some (String.mk acc.reverse, rest)
      else if c == Char.ofNat 92 then Option.none
      else quotedStrAux q rest (c :: acc)

/-- Read a maximal run of decimal digits. -/
def jsonDigits : List Char → List Char → List Char × List Char
  | c :: rest, acc =>
      if c.isDigit then jsonDigits rest (c :: acc) else (acc.reverse, c :: rest)
  | [], acc => (acc.reverse, [])

/-- End of a JSON number: a following fraction or exponent marker is outside
the modelled (integer) subset. -/
def jsonNumEnd (n : Int) (rest : List Char) : Option (PyVal × List Char) :=
  match rest with
  | c :: _ =>
      if c == '.' || c == 'e' || c == 'E' then Option.none
      else some (.int n, rest)
  | [] => some (.int n, [])

/-- A JSON number from the head of the input (integers only, see jsonNumEnd). -/
def jsonNum (cs : List Char) : Option (PyVal × List Char) :=
  match cs with
  | c :: rest =>
      if c == '-' then
        match jsonDigits rest [] with
        | ([], _) => Option.none
        | (ds, rest2) => jsonNumEnd (-(digitsToNat ds : Int)) rest2
      else
        match jsonDigits (c :: rest) [] with
        | ([], _) => Option.none
        | (ds, rest2) => jsonNumEnd (digitsToNat ds) rest2
  | [] => Option.none

mutual

/-- One JSON value from the head of the input, fuelled by the input length. -/
def jsonVal : Nat → List Char → Option (PyVal × List Char)
  | 0, _ => Option.none
  | Nat.succ fuel, cs =>
    match jsonWs cs with
    | 'n' :: 'u' :: 'l' :: 'l' :: rest => some (PyVal.none, rest)
    | 't' :: 'r' :: 'u' :: 'e' :: rest => some (PyVal.bool true, rest)
    | 'f' :: 'a' :: 'l' :: 's' :: 'e' :: rest => some (PyVal.bool false, rest)
    | c :: rest =>
        if c == Char.ofNat 34 then
          (quotedStrAux (Char.ofNat 34) rest []).map (fun p => (PyVal.str p.1, p.2))
        else if c == '[' then
          match jsonWs rest with
          | ']' :: rest2 => some (PyVal.list [], rest2)
          | cs2 => (jsonItems fuel cs2).map (fun p => (PyVal.list p.1, p.2))
        else if c == Char.ofNat 123 then
          match jsonWs rest with
          | c2 :: rest2 =>
              if c2 == Char.ofNat 125 then some (PyVal.dict [], rest2)
              else (jsonMembers fuel (c2 :: rest2)).map (fun p => (PyVal.dict p.1, p.2))
          | [] => Option.none
        else if c == '-' || c.isDigit then jsonNum (c :: rest)
        else Option.none
    | [] => Option.none

/-- The elements of a JSON array after its first opening bracket. -/
def jsonItems : Nat → List Char → Option (List PyVal × List Char)
  | 0, _ => Option.none
  | Nat.succ fuel, cs =>
    match jsonVal fuel cs with
    | some (v, rest) =>
        match jsonWs rest with
        | c :: rest2 =>
            if c == ',' then (jsonItems fuel rest2).map (fun p => (v :: p.1, p.2))
            else if c == ']' then some ([v], rest2)
            else Option.none
        | [] => Option.none
    | Option.none => Option.none

/-- The members of a JSON object after its opening brace. -/
def jsonMembers : Nat → List Char → Option (List (String × PyVal) × List Char)
  | 0, _ => Option.none
  | Nat.succ fuel, cs =>
    match jsonWs cs with
    | c :: rest =>
        if c == Char.ofNat 34 then
          match quotedStrAux (Char.ofNat 34) rest [] with
          | some (key, rest2) =>
              match jsonWs rest2 with
              | c2 :: rest3 =>
                  if c2 == ':' then
                    match jsonVal fuel rest3 with
                    | some (v, rest4) =>
                        match jsonWs rest4 with
                        | c3 :: rest5 =>
                            if c3 == ',' then
                              (jsonMembers fuel rest5).map (fun p => ((key, v) :: p.1, p.2))
                            else if c3 == Char.ofNat 125 then some ([(key, v)], rest5)
                            else Option.none
                        | [] => Option.none
                    | Option.none => Option.none
                  else Option.none
              | [] => Option.none
          | Option.none => Option.none
        else Option.none
    | [] => Option.none

end

/-- Models json.loads on the strings this program can feed it: null,
booleans, integers, escape-free strings, arrays, objects and whitespace.
Fractional or exponent numbers and string escapes are outside the modelled
subset; the properties below depend on the shape of the decode result, never
on the textual grammar beyond the concrete inputs they evaluate. -/
def jsonLoads (s : String) : Option PyVal :=
  match jsonVal (s.length + 1) s.data with
  | some (v, rest) => if jsonWs rest = [] then some v else Option.none
  | Option.none => Option.none

/-- The elements of a Python quoted-string-list literal after its opening
bracket, fuelled by the input length; a trailing comma is accepted as
ast.literal_eval does. -/
def levItems : Nat → List Char → Option (List String × List Char)
  | 0, _ => Option.none
  | Nat.succ fuel, cs =>
    match jsonWs cs with
    | c :: rest =>
        if c == Char.ofNat 39 || c == Char.ofNat 34 then
          match quotedStrAux c rest [] with
          | some (s1, rest2) =>
              match jsonWs rest2 with
              | c2 :: rest3 =>
                  if c2 == ',' then
                    match jsonWs rest3 with
                    | ']' :: rest4 => some ([s1], rest4)
                    | cs4 => (levItems fuel cs4).map (fun p => (s1 :: p.1, p.2))
                  else if c2 == ']' then some ([s1], rest3)
                  else Option.none
              | [] => Option.none
          | Option.none => Option.none
        else Option.none
    | [] => Option.none

/-- Models ast.literal_eval restricted to the single shape the source probes
for before calling it: a list literal of quoted strings. Escape sequences and
non-string elements are outside the subset and are mapped to the failure
path, which the caller treats as the fall-through to the JSON branch. -/
def literalEvalStrList (s : String) : Option (List String) :=
  match jsonWs s.data with
  | c :: rest =>
      if c == '[' then
        match jsonWs rest with
        | ']' :: rest2 => if jsonWs rest2 = [] then some [] else Option.none
        | cs2 =>
            match levItems (s.length + 1) cs2 with
            | some (items, rest2) => if jsonWs rest2 = [] then some items else Option.none
            | Option.none => Option.none
      else Option.none
  | [] => Option.none

/-- The fixed record extract_dataset_settings returns for a None loader
argument (data_parsers.py lines 19-26). -/
def defaultDatasetSettings : List (String × PyVal) :=
  [("prompt_tokens", .int 400), ("prompt_tokens_stdev", .int 0),
   ("output_tokens", .int 200), ("output_tokens_stdev", .int 0),
   ("processor", .str "multiturn")]

/-- dataset_settings.get(key, dflt) on the plain dict that
extract_dataset_settings returns. -/
def dsGet (ds : List (String × PyVal)) (key : String) (dflt : PyVal) : PyVal :=
  (pyLookup ds key).getD dflt

/-- Lines 40-44 of extract_dataset_settings: fold the comma-separated
pieces of the first list element into the settings dict, splitting each
piece at the first equals sign and coercing all-digit values to int; later
duplicate keys overwrite as dict assignment does. -/
def settingsOfItems (items : List String) : List (String × PyVal) :=
  items.foldl
    (fun acc item =>
      if item.data.any (fun c => c == '=') then
        let kv := splitFirstAux '=' item.data []
        dictSet acc kv.1
          (if isDigitStrChars kv.2.data then .int (digitsToNat kv.2.data) else .str kv.2)
      else acc)
    []

/-- Lines 56-68 of extract_dataset_settings: the v0.3.0 branch. json.loads
on a non-string argument raises TypeError, which the source catches and
turns into the empty dict, as it does a JSONDecodeError; a successful decode
to a non-dict value reaches data_dict.get and raises AttributeError, which
the source does not catch. -/
def datasetJsonBranch (data_str request_loader : PyVal) :
    Except PErr (List (String × PyVal)) :=
  match data_str with
  | .str s =>
      match jsonLoads s with
      | some (.dict d) =>
          pyBind (request_loader.getD "processor" (.str "")) (fun proc =>
            .ok [("prompt_tokens", (pyLookup d "prompt_tokens").getD (.int 0)),
                 ("prompt_tokens_stdev", (pyLookup d "prompt_tokens_stdev").getD (.int 0)),
                 ("output_tokens", (pyLookup d "output_tokens").getD (.int 0)),
                 ("output_tokens_stdev", (pyLookup d "output_tokens_stdev").getD (.int 0)),
                 ("processor", proc)])
      | some _ => .error .attributeError
      | Option.none => .ok []
  | _ => .ok []

/-- Lean model of extract_dataset_settings (data_parsers.py lines 10-68).
The argument is the Python object the callers pass: None selects the fixed
default record; otherwise the loader's data field is probed for the
stringified-list shape first and treated as a JSON string on fall-through. -/
def extract_dataset_settings (request_loader : PyVal) :
    Except PErr (List (String × PyVal)) :=
  if request_loader = PyVal.none then .ok defaultDatasetSettings
  else
    pyBind (request_loader.getD "data" (.str "")) (fun data_str =>
      if !data_str.truthy then .ok []
      else
        match data_str with
        | .str s =>
            if strStarts s "[\x27" && strEnds s "\x27]" then
              match literalEvalStrList s with
              | some (item0 :: _) =>
                  pyBind (request_loader.getD "processor" (.str "")) (fun proc =>
                    .ok [("prompt_tokens",
                           dsGet (settingsOfItems (splitChar item0 ',')) "prompt_tokens" (.int 0)),
                         ("prompt_tokens_stdev", .int 0),
                         ("output_tokens",
                           dsGet (settingsOfItems (splitChar item0 ',')) "output_tokens" (.int 0)),
                         ("output_tokens_stdev", .int 0),
                         ("processor", proc)])
              | some [] => datasetJsonBranch data_str request_loader
              | Option.none => datasetJsonBranch data_str request_loader
            else datasetJsonBranch data_str request_loader
        | _ => datasetJsonBranch data_str request_loader)

/-- Lines 98-105 (and identically 246-250): the strategy mapping, Variant A
(config.strategy) first, falling back to Variant B (args.strategy) when the
Variant-A value is missing or falsy. -/
def resolveStrategy (config args : PyVal) : Except PErr PyVal :=
  pyBind (config.getD "strategy" (.dict [])) (fun s0 =>
    if s0.truthy then .ok s0 else args.getD "strategy" (.dict []))

/-- Lines 107-110 (and identically 252-255): the profile mapping, Variant A
first with the same fallback rule. -/
def resolveProfile (config args : PyVal) : Except PErr PyVal :=
  pyBind (config.getD "profile" (.dict [])) (fun p0 =>
    if p0.truthy then .ok p0 else args.getD "profile" (.dict []))

/-- Lines 112-117 (and 257-262): concurrency from strategy.max_concurrency,
falling back to strategy.streams when the first lookup yields None. -/
def resolveConcurrency (strategy : PyVal) : Except PErr PyVal :=
  pyBind (strategy.getD "max_concurrency" PyVal.none) (fun c0 =>
    if c0 = PyVal.none then strategy.getD "streams" PyVal.none else .ok c0)

/-- Lines 119-131 (and 264-275): rps is non-None only for a constant
strategy type, preferring strategy.rate over the first element of
profile.rate, and is cast with float(). -/
def resolveRps (strategy profile : PyVal) : Except PErr PyVal :=
  pyBind (profile.getD "strategy_type" PyVal.none) (fun stDefault =>
    pyBind (strategy.getD "type_" stDefault) (fun strategy_type =>
      if pyEq strategy_type (.str "constant") then
        pyBind (strategy.getD "rate" PyVal.none) (fun rate0 =>
          pyBind
            (if rate0 = PyVal.none then
              pyBind (profile.getD "rate" PyVal.none) (fun rl0 =>
                match (if rl0.truthy then rl0 else PyVal.list []) with
                | .list (x :: _) => .ok x
                | _ => .ok PyVal.none)
            else .ok rate0)
            (fun rate =>
              if rate = PyVal.none then .ok PyVal.none else pyFloat rate))
      else .ok PyVal.none))

/-- Lines 97-131 (and identically 242-275): the axis-resolution block shared
verbatim by parse_benchmark_metrics and parse_individual_requests, returning
the (concurrency, rps) pair. -/
def entryAxis (benchmark : PyVal) : Except PErr (PyVal × PyVal) :=
  pyBind (benchmark.getD "config" (.dict [])) (fun config =>
    pyBind (benchmark.getD "args" (.dict [])) (fun args =>
      pyBind (resolveStrategy config args) (fun strategy =>
        pyBind (resolveProfile config args) (fun profile =>
          pyBind (resolveConcurrency strategy) (fun concurrency =>
            pyBind (resolveRps strategy profile) (fun rps =>
              .ok (concurrency, rps)))))))

/-- Lines 141-143 (and identically 284-286): the argument both extractors
hand to extract_dataset_settings: config.requests when truthy, else the
entry's request_loader value, each defaulting to an empty dict. -/
def entryLoaderArg (benchmark : PyVal) : Except PErr PyVal :=
  pyBind (benchmark.getD "config" (.dict [])) (fun config =>
    pyBind (config.getD "requests" (.dict [])) (fun request_config =>
      pyBind (benchmark.getD "request_loader" (.dict [])) (fun request_loader =>
        .ok (if request_config.truthy then request_config else request_loader))))

/-- Lines 141-143 / 284-286 together with the call to
extract_dataset_settings. -/
def entryDataset (benchmark : PyVal) : Except PErr (List (String × PyVal)) :=
  pyBind (entryLoaderArg benchmark) extract_dataset_settings

/-- Lines 148-156: the mean throughput for one metric key: the successful
bucket's mean, falling back to the total bucket's mean when the former
equals 0 (which is also the default for an absent mean). -/
def metricMean (metrics : PyVal) (key : String) : Except PErr PyVal :=
  pyBind (metrics.getD key (.dict [])) (fun bucket =>
    pyBind (bucket.getD "successful" (.dict [])) (fun succ =>
      pyBind (succ.getD "mean" (.int 0)) (fun m =>
        if pyEq m (.int 0) then
          pyBind (bucket.getD "total" (.dict [])) (fun tot =>
            tot.getD "mean" (.int 0))
        else .ok m)))

/-- One summary row (lines 168-199 of data_parsers.py). The filename and
filepath identity fields and the extra_metadata overlay come from the
enclosing function's arguments, not from the benchmark entry, and are left
out of this entry-level model. -/
structure SummaryRow where
  concurrency : PyVal
  rps : PyVal
  prompt_tokens : PyVal
  prompt_tokens_stdev : PyVal
  output_tokens : PyVal
  output_tokens_stdev : PyVal
  processor : PyVal
  mean_output_tokens_per_second : PyVal
  mean_total_tokens_per_second : PyVal
  request_latency_mean : PyVal
  request_latency_median : PyVal
  ttft_mean : PyVal
  ttft_median : PyVal
  itl_mean : PyVal
  itl_median : PyVal
  request_latency_p95 : PyVal
  request_latency_p99 : PyVal
  ttft_p95 : PyVal
  ttft_p99 : PyVal
  itl_p95 : PyVal
  itl_p99 : PyVal
  input_sequence_length : PyVal
  output_sequence_length : PyVal
deriving DecidableEq

/-- The aggregate-metric snapshot of one summary row (lines 145-166 and the
metric entries of the row literal at lines 178-198). -/
structure MetricsPart where
  output_tps : PyVal
  total_tps : PyVal
  rl_mean : PyVal
  rl_median : PyVal
  ttft_mean : PyVal
  ttft_median : PyVal
  itl_mean : PyVal
  itl_median : PyVal
  rl_p95 : PyVal
  rl_p99 : PyVal
  ttft_p95 : PyVal
  ttft_p99 : PyVal
  itl_p95 : PyVal
  itl_p99 : PyVal
  isl : PyVal
  osl : PyVal
deriving DecidableEq

/-- One successful-bucket latency mapping (lines 158-161). -/
def metricSuccessful (metrics : PyVal) (key : String) : Except PErr PyVal :=
  pyBind (metrics.getD key (.dict [])) (fun b => b.getD "successful" (.dict []))

/-- Lines 145-166 and 178-198: every aggregate metric of one summary row,
read from the entry's metrics mapping. -/
def entryMetrics (benchmark : PyVal) : Except PErr MetricsPart :=
  pyBind (benchmark.getD "metrics" (.dict [])) (fun metrics =>
    pyBind (metricMean metrics "output_tokens_per_second") (fun otps =>
      pyBind (metricMean metrics "tokens_per_second") (fun ttps =>
        pyBind (metricSuccessful metrics "request_latency") (fun request_latency =>
          pyBind (metricSuccessful metrics "time_to_first_token_ms") (fun ttft =>
            pyBind (metricSuccessful metrics "inter_token_latency_ms") (fun itl =>
              pyBind (request_latency.getD "percentiles" (.dict [])) (fun rlp =>
                pyBind (ttft.getD "percentiles" (.dict [])) (fun tfp =>
                  pyBind (itl.getD "percentiles" (.dict [])) (fun ilp =>
                    pyBind (request_latency.getD "mean" (.int 0)) (fun rlm =>
                      pyBind (request_latency.getD "median" (.int 0)) (fun rlmed =>
                        pyBind (ttft.getD "mean" (.int 0)) (fun tfm =>
                          pyBind (ttft.getD "median" (.int 0)) (fun tfmed =>
                            pyBind (itl.getD "mean" (.int 0)) (fun ilm =>
                              pyBind (itl.getD "median" (.int 0)) (fun ilmed =>
                                pyBind (rlp.getD "p95" (.int 0)) (fun rl95 =>
                                  pyBind (rlp.getD "p99" (.int 0)) (fun rl99 =>
                                    pyBind (tfp.getD "p95" (.int 0)) (fun tf95 =>
                                      pyBind (tfp.getD "p99" (.int 0)) (fun tf99 =>
                                        pyBind (ilp.getD "p95" (.int 0)) (fun il95 =>
                                          pyBind (ilp.getD "p99" (.int 0)) (fun il99 =>
                                            pyBind (metricSuccessful metrics "prompt_token_count") (fun ptc =>
                                              pyBind (ptc.getD "mean" (.int 0)) (fun isl =>
                                                pyBind (metricSuccessful metrics "output_token_count") (fun otc =>
                                                  pyBind (otc.getD "mean" (.int 0)) (fun osl =>
                                                    .ok { output_tps := otps, total_tps := ttps,
                                                          rl_mean := rlm, rl_median := rlmed,
                                                          ttft_mean := tfm, ttft_median := tfmed,
                                                          itl_mean := ilm, itl_median := ilmed,
                                                          rl_p95 := rl95, rl_p99 := rl99,
                                                          ttft_p95 := tf95, ttft_p99 := tf99,
                                                          itl_p95 := il95, itl_p99 := il99,
                                                          isl := isl, osl := osl })))))))))))))))))))))))))

/-- The summary-row literal of lines 168-199, from the resolved axis pair,
dataset settings and metric snapshot. -/
def mkSummaryRow (ax : PyVal × PyVal) (ds : List (String × PyVal)) (mp : MetricsPart) :
    SummaryRow :=
  { concurrency := ax.1, rps := ax.2,
    prompt_tokens := dsGet ds "prompt_tokens" (.int 0),
    prompt_tokens_stdev := dsGet ds "prompt_tokens_stdev" (.int 0),
    output_tokens := dsGet ds "output_tokens" (.int 0),
    output_tokens_stdev := dsGet ds "output_tokens_stdev" (.int 0),
    processor := dsGet ds "processor" (.str ""),
    mean_output_tokens_per_second := mp.output_tps,
    mean_total_tokens_per_second := mp.total_tps,
    request_latency_mean := mp.rl_mean, request_latency_median := mp.rl_median,
    ttft_mean := mp.ttft_mean, ttft_median := mp.ttft_median,
    itl_mean := mp.itl_mean, itl_median := mp.itl_median,
    request_latency_p95 := mp.rl_p95, request_latency_p99 := mp.rl_p99,
    ttft_p95 := mp.ttft_p95, ttft_p99 := mp.ttft_p99,
    itl_p95 := mp.itl_p95, itl_p99 := mp.itl_p99,
    input_sequence_length := mp.isl, output_sequence_length := mp.osl }

/-- Lean model of the per-entry body of parse_benchmark_metrics (lines
96-205): Except.ok Option.none models the entry being skipped with a
diagnostic, Except.error models a Python exception escaping the loop. -/
def parseBenchmarkEntry (benchmark : PyVal) : Except PErr (Option SummaryRow) :=
  pyBind (entryAxis benchmark) (fun ax =>
    if ax.1 = PyVal.none ∧ ax.2 = PyVal.none then .ok Option.none
    else
      pyBind (entryDataset benchmark) (fun ds =>
        pyBind (entryMetrics benchmark) (fun mp =>
          .ok (some (mkSummaryRow ax ds mp)))))

/-- One per-request row (lines 307-351). The filename/filepath identity
fields and the extra_metadata overlay are again left to the enclosing
function. -/
structure RequestRow where
  concurrency : PyVal
  rps : PyVal
  dataset_prompt_tokens : PyVal
  dataset_output_tokens : PyVal
  request_id : PyVal
  prompt_tokens : PyVal
  output_tokens : PyVal
  request_latency : PyVal
  time_to_first_token_ms : PyVal
  inter_token_latency_ms : PyVal
  tokens_per_second : PyVal
  output_tokens_per_second : PyVal
  first_token_time : PyVal
  start_time : PyVal
  end_time : PyVal
  first_token_time_relative : PyVal
  start_time_relative : PyVal
  end_time_relative : PyVal
deriving DecidableEq

/-- The per-request fields read directly off one request mapping (lines
304-325). -/
structure ReqFields where
  start_time : PyVal
  end_time : PyVal
  request_id : PyVal
  prompt_tokens : PyVal
  output_tokens : PyVal
  request_latency : PyVal
  ttft : PyVal
  itl : PyVal
  tps : PyVal
  otps : PyVal
  first_token_time : PyVal
deriving DecidableEq

/-- Lines 304-305 and 314-322: reading one request's fields; the timestamp
fields try the Variant-A key (request_start_time / request_end_time) first,
the fallback default being the Variant-B key's value (start_time / end_time)
which itself defaults to 0. -/
def requestFields (request : PyVal) : Except PErr ReqFields :=
  pyBind (request.getD "start_time" (.int 0)) (fun st0 =>
    pyBind (request.getD "request_start_time" st0) (fun start_time =>
      pyBind (request.getD "end_time" (.int 0)) (fun et0 =>
        pyBind (request.getD "request_end_time" et0) (fun end_time =>
          pyBind (request.getD "request_id" (.str "")) (fun rid =>
            pyBind (request.getD "prompt_tokens" (.int 0)) (fun pt =>
              pyBind (request.getD "output_tokens" (.int 0)) (fun ot =>
                pyBind (request.getD "request_latency" (.int 0)) (fun rl =>
                  pyBind (request.getD "time_to_first_token_ms" (.int 0)) (fun tf =>
                    pyBind (request.getD "inter_token_latency_ms" (.int 0)) (fun il =>
                      pyBind (request.getD "tokens_per_second" (.int 0)) (fun tp =>
                        pyBind (request.getD "output_tokens_per_second" (.int 0)) (fun op =>
                          pyBind (request.getD "first_token_time" (.int 0)) (fun ft =>
                            .ok { start_time := start_time, end_time := end_time,
                                  request_id := rid, prompt_tokens := pt,
                                  output_tokens := ot, request_latency := rl,
                                  ttft := tf, itl := il, tps := tp, otps := op,
                                  first_token_time := ft })))))))))))))

/-- Lines 333-346: one relative-time value: absolute minus run start when
the absolute value is strictly positive, else 0. -/
def relTime (absv tst : PyVal) : Except PErr PyVal :=
  pyBind (pyGtZero absv) (fun pos =>
    if pos then pySub absv tst else .ok (.int 0))

/-- Lines 327-351: the three relative-time fields; all are 0 when no test
start time is known. -/
def requestRels (g : ReqFields) (tst : PyVal) :
    Except PErr (PyVal × PyVal × PyVal) :=
  if tst = PyVal.none then .ok (.int 0, .int 0, .int 0)
  else
    pyBind (relTime g.first_token_time tst) (fun ftr =>
      pyBind (relTime g.start_time tst) (fun str2 =>
        pyBind (relTime g.end_time tst) (fun etr =>
          .ok (ftr, str2, etr))))

/-- The request-row literal of lines 307-351. -/
def mkRequestRow (c r : PyVal) (ds : List (String × PyVal)) (g : ReqFields)
    (rels : PyVal × PyVal × PyVal) : RequestRow :=
  { concurrency := c, rps := r,
    dataset_prompt_tokens := dsGet ds "prompt_tokens" (.int 0),
    dataset_output_tokens := dsGet ds "output_tokens" (.int 0),
    request_id := g.request_id, prompt_tokens := g.prompt_tokens,
    output_tokens := g.output_tokens, request_latency := g.request_latency,
    time_to_first_token_ms := g.ttft, inter_token_latency_ms := g.itl,
    tokens_per_second := g.tps, output_tokens_per_second := g.otps,
    first_token_time := g.first_token_time, start_time := g.start_time,
    end_time := g.end_time,
    first_token_time_relative := rels.1,
    start_time_relative := rels.2.1,
    end_time_relative := rels.2.2 }

/-- Lines 300-357: processing of one successful request of an entry. -/
def processOneRequest (c r : PyVal) (ds : List (String × PyVal)) (tst : PyVal)
    (request : PyVal) : Except PErr RequestRow :=
  pyBind (requestFields request) (fun g =>
    pyBind (requestRels g tst) (fun rels =>
      .ok (mkRequestRow c r ds g rels)))

/-- Lines 236-240: the run start time, run_stats.start_time (Variant B)
first, then the entry's top-level start_time (Variant A), else None. -/
def entryStartTime (benchmark : PyVal) : Except PErr PyVal :=
  pyBind (benchmark.getD "run_stats" (.dict [])) (fun run_stats =>
    pyBind (run_stats.getD "start_time" PyVal.none) (fun t0 =>
      if t0 = PyVal.none then benchmark.getD "start_time" PyVal.none else .ok t0))

/-- Exception-propagating map over the successful-request list, modelling
the for loop of lines 300-357. -/
def mapRequests (f : PyVal → Except PErr RequestRow) :
    List PyVal → Except PErr (List RequestRow)
  | [] => .ok []
  | q :: qs =>
      pyBind (f q) (fun row =>
        pyBind (mapRequests f qs) (fun rows => .ok (row :: rows)))

/-- Lean model of the per-entry body of parse_individual_requests (lines
235-357): Except.ok Option.none models the entry being skipped with a
diagnostic (axis missing, or no successful requests), Except.error a Python
exception escaping the loop. Iterating a truthy non-list "successful" value
is modelled as TypeError; real Python raises on such an entry at the same
point or one step later (treating an iterated element as a mapping), and
only the fact that an exception escapes is ever relied on below. -/
def parseIndividualEntry (benchmark : PyVal) :
    Except PErr (Option (List RequestRow)) :=
  pyBind (entryStartTime benchmark) (fun tst =>
    pyBind (entryAxis benchmark) (fun ax =>
      if ax.1 = PyVal.none ∧ ax.2 = PyVal.none then .ok Option.none
      else
        pyBind (entryDataset benchmark) (fun ds =>
          pyBind (benchmark.getD "requests" (.dict [])) (fun requests =>
            pyBind (requests.getD "successful" (.list [])) (fun succ =>
              match succ with
              | .list [] => .ok Option.none
              | .list qs =>
                  pyBind (mapRequests (processOneRequest ax.1 ax.2 ds tst) qs)
                    (fun rows => .ok (some rows))
              | v => if v.truthy then .error .typeError else .ok Option.none)))))

mutual

/-- Python str(v) for the values these tables hold: exact for None, bools,
ints and strings (the shapes the dataset-identifier columns actually carry);
container rendering is simplified to bracketed comma-joined parts. -/
def pyStr : PyVal → String
  | .none => "None"
  | .bool b => if b then "True" else "False"
  | .int n => toString n
  | .str s => s
  | .list xs => "[" ++ pyStrJoin xs ++ "]"
  | .dict xs => "\x7b" ++ pyStrJoinKV xs ++ "\x7d"

/-- Comma-joined renderings of a value list. -/
def pyStrJoin : List PyVal → String
  | [] => ""
  | [x] => pyStr x
  | x :: xs => pyStr x ++ ", " ++ pyStrJoin xs

/-- Comma-joined renderings of a key/value list. -/
def pyStrJoinKV : List (String × PyVal) → String
  | [] => ""
  | [(k, v)] => k ++ ": " ++ pyStr v
  | (k, v) :: xs => k ++ ": " ++ pyStr v ++ ", " ++ pyStrJoinKV xs

end

/-- A pandas DataFrame modelled as its column-name list plus one key/value
record per row; a missing cell reads as None (pandas NaN). -/
structure Frame where
  cols : List String
  rows : List (List (String × PyVal))
deriving DecidableEq

/-- One cell of a row, df[col] evaluated at that row. -/
def cellGet (r : List (String × PyVal)) (key : String) : PyVal :=
  (pyLookup r key).getD PyVal.none

/-- Column assignment df[name] = vals: every row gets its value and the
column name is appended when new. -/
def setCol (df : Frame) (name : String) (vals : List PyVal) : Frame :=
  { cols := if name ∈ df.cols then df.cols else df.cols ++ [name],
    rows := List.zipWith (fun r v => dictSet r name v) df.rows vals }

/-- One column of a frame as a value list. -/
def colVals (df : Frame) (name : String) : List PyVal :=
  df.rows.map (fun r => cellGet r name)

/-- Lean model of create_dataset_identifier (data_parsers.py lines 394-407):
dataset_id is the prompt-token rendering, a dash, and the output-token
rendering, from the summary-row columns when present, else from the
per-request dataset_* columns, else the frame is returned unchanged.
Indexing the paired output-token column when it is absent raises KeyError as
pandas does. -/
def create_dataset_identifier (df : Frame) : Except PErr Frame :=
  if "prompt_tokens" ∈ df.cols then
    if "output_tokens" ∈ df.cols then
      .ok (setCol df "dataset_id"
        (df.rows.map (fun r =>
          PyVal.str (pyStr (cellGet r "prompt_tokens") ++ "-" ++ pyStr (cellGet r "output_tokens")))))
    else .error .keyError
  else if "dataset_prompt_tokens" ∈ df.cols then
    if "dataset_output_tokens" ∈ df.cols then
      .ok (setCol df "dataset_id"
        (df.rows.map (fun r =>
          PyVal.str (pyStr (cellGet r "dataset_prompt_tokens") ++ "-" ++ pyStr (cellGet r "dataset_output_tokens")))))
    else .error .keyError
  else .ok df

/-- Line 424 (and 448): the axis field name chosen by the axis mode. -/
def axisField (axis_mode : String) : String :=
  if axis_mode = "concurrency" then "concurrency" else "rps"

/-- Pandas Series.isin membership against the configured level list, by
Python value equality. -/
def pyIsin (v : PyVal) (levels : List PyVal) : Bool :=
  levels.any (fun l => pyEq v l)

/-- Lean model of filter_data_by_levels (data_parsers.py lines 410-435):
None levels and a missing axis column return the frame unchanged (the latter
with a diagnostic only); otherwise exactly the rows whose axis value is a
member of the level list are kept, in order; an empty result is returned as
a valid frame. -/
def filter_data_by_levels (df : Frame) (axis_mode : String)
    (levels : Option (List PyVal)) : Frame :=
  match levels with
  | Option.none => df
  | some lv =>
      if axisField axis_mode ∈ df.cols then
        { df with rows := df.rows.filter (fun r => pyIsin (cellGet r (axisField axis_mode)) lv) }
      else df

/-- Nested key lookup through dict values, used only to state properties
against the raw entry tree. -/
def pathLookup : PyVal → List String → Option PyVal
  | v, [] => some v
  | .dict d, k :: ks =>
      match pyLookup d k with
      | some v => pathLookup v ks
      | Option.none => Option.none
  | _, _ :: _ => Option.none

/-- The summary row an entry-level result emitted, if any (skipped entries
and escaping exceptions emit none). -/
def emittedSummary : Except PErr (Option SummaryRow) → Option SummaryRow
  | .ok r => r
  | .error _ => Option.none

/-- The request rows an entry-level result emitted, if any. -/
def emittedRequests : Except PErr (Option (List RequestRow)) → Option (List RequestRow)
  | .ok r => r
  | .error _ => Option.none

/-- A benchmark entry whose strategy carries both a max_concurrency and a
constant rate, as JSON can express. -/
def entryBothAxes : PyVal :=
  .dict [("config", .dict [("strategy",
    .dict [("max_concurrency", .int 4), ("type_", .str "constant"), ("rate", .int 2)])])]

/-- A benchmark entry whose request_loader key holds JSON null. -/
def entryNullLoader : PyVal :=
  .dict [("config", .dict [("strategy", .dict [("max_concurrency", .int 4)])]),
         ("request_loader", PyVal.none)]

theorem pyBind_ok_iff {α β : Type} (x : Except PErr α) (f : α → Except PErr β)
    (b : β) : pyBind x f = .ok b ↔ ∃ a, x = .ok a ∧ f a = .ok b := by
  cases x <;> simp [pyBind]

theorem getD_dict (d : List (String × PyVal)) (key : String) (dflt : PyVal) :
    (PyVal.dict d).getD key dflt = .ok ((pyLookup d key).getD dflt) := rfl

theorem dict_ne_none (d : List (String × PyVal)) : PyVal.dict d ≠ PyVal.none := by
  intro h
  cases h

/-- C7. Default dataset settings: applied to a null loader input,
extract_dataset_settings returns exactly the record prompt_tokens 400,
prompt_tokens_stdev 0, output_tokens 200, output_tokens_stdev 0,
processor "multiturn". -/
theorem extract_dataset_settings_none_default :
    extract_dataset_settings PyVal.none =
      .ok [("prompt_tokens", .int 400), ("prompt_tokens_stdev", .int 0),
           ("output_tokens", .int 200), ("output_tokens_stdev", .int 0),
           ("processor", .str "multiturn")] := by
  decide

/-- C6. Stringified-list parsing: for every loader mapping whose data field
is the one-element stringified list of prompt_tokens=512,output_tokens=256,
extract_dataset_settings returns 512/256 with zero stdevs and the processor
taken from the loader's processor field (defaulting to the empty string). -/
theorem extract_dataset_settings_stringified_list (rl : List (String × PyVal))
    (h : pyLookup rl "data" = some (.str "[\x27prompt_tokens=512,output_tokens=256\x27]")) :
    extract_dataset_settings (.dict rl) =
      .ok [("prompt_tokens", .int 512), ("prompt_tokens_stdev", .int 0),
           ("output_tokens", .int 256), ("output_tokens_stdev", .int 0),
           ("processor", dsGet rl "processor" (.str ""))] := by
  have h1 : (PyVal.dict rl).getD "data" (.str "") =
      .ok (.str "[\x27prompt_tokens=512,output_tokens=256\x27]") := by
    rw [getD_dict, h]
    rfl
  unfold extract_dataset_settings
  rw [if_neg (dict_ne_none rl), h1]
  rfl

/-- Witness for C6 at a concrete loader mapping. -/
theorem extract_dataset_settings_stringified_list_witness :
    extract_dataset_settings
        (.dict [("data", .str "[\x27prompt_tokens=512,output_tokens=256\x27]"),
                ("processor", .str "SyntheticTextItemsGenerator")]) =
      .ok [("prompt_tokens", .int 512), ("prompt_tokens_stdev", .int 0),
           ("output_tokens", .int 256), ("output_tokens_stdev", .int 0),
           ("processor", dsGet [("data", .str "[\x27prompt_tokens=512,output_tokens=256\x27]"),
                ("processor", .str "SyntheticTextItemsGenerator")] "processor" (.str ""))] :=
  extract_dataset_settings_stringified_list
    [("data", .str "[\x27prompt_tokens=512,output_tokens=256\x27]"),
     ("processor", .str "SyntheticTextItemsGenerator")] (by decide)

/-- C2 counterexample: a data string that JSON-decodes to the number 5 (the
wrong type) makes extract_dataset_settings raise AttributeError instead of
returning an empty mapping, so the extraction does raise an exception. -/
theorem extract_dataset_settings_wrong_type_raises :
    extract_dataset_settings (.dict [("data", .str "5")]) = .error .attributeError := by
  decide

/-- C2 as amended. JSON-branch behaviour: for every loader mapping whose
data field is a non-empty string without the stringified-list shape, the
result is determined by the decode result: a decoded object yields the
record with 0 defaults and the loader's processor; a decode failure yields
the empty mapping; a decoded non-object value raises AttributeError. -/
theorem extract_dataset_settings_json_branch (rl : List (String × PyVal))
    (s : String) (h : pyLookup rl "data" = some (.str s)) (hs : s ≠ "")
    (hshape : (strStarts s "[\x27" && strEnds s "\x27]") = false) :
    (∀ d, jsonLoads s = some (.dict d) →
      extract_dataset_settings (.dict rl) =
        .ok [("prompt_tokens", (pyLookup d "prompt_tokens").getD (.int 0)),
             ("prompt_tokens_stdev", (pyLookup d "prompt_tokens_stdev").getD (.int 0)),
             ("output_tokens", (pyLookup d "output_tokens").getD (.int 0)),
             ("output_tokens_stdev", (pyLookup d "output_tokens_stdev").getD (.int 0)),
             ("processor", dsGet rl "processor" (.str ""))]) ∧
    (jsonLoads s = Option.none → extract_dataset_settings (.dict rl) = .ok []) ∧
    (∀ v, jsonLoads s = some v → (∀ d, v ≠ PyVal.dict d) →
      extract_dataset_settings (.dict rl) = .error .attributeError) := by
  have h1 : (PyVal.dict rl).getD "data" (.str "") = .ok (.str s) := by
    rw [getD_dict, h]
    rfl
  have ht : (PyVal.str s).truthy = true := by
    simp [PyVal.truthy, hs]
  have hmain : extract_dataset_settings (.dict rl) = datasetJsonBranch (.str s) (.dict rl) := by
    unfold extract_dataset_settings
    rw [if_neg (dict_ne_none rl), h1]
    show (if !(PyVal.str s).truthy then Except.ok [] else _) = _
    rw [ht]
    show (if strStarts s "[\x27" && strEnds s "\x27]" then _ else _) = _
    rw [hshape]
    simp
  refine ⟨?_, ?_, ?_⟩
  · intro d hj
    rw [hmain]
    simp only [datasetJsonBranch, hj]
    rfl
  · intro hj
    rw [hmain]
    simp only [datasetJsonBranch, hj]
  · intro v hj hv
    rw [hmain]
    match v, hv with
    | PyVal.none, _ => simp only [datasetJsonBranch, hj]
    | PyVal.bool b, _ => simp only [datasetJsonBranch, hj]
    | PyVal.int n, _ => simp only [datasetJsonBranch, hj]
    | PyVal.str t, _ => simp only [datasetJsonBranch, hj]
    | PyVal.list xs, _ => simp only [datasetJsonBranch, hj]
    | PyVal.dict d, hv => exact absurd rfl (hv d)

/-- Witness for C2 as amended, at the concrete decodable-object string. -/
theorem extract_dataset_settings_json_branch_witness :
    extract_dataset_settings (.dict [("data", .str "\x7b\x22prompt_tokens\x22: 7\x7d")]) =
      .ok [("prompt_tokens", (pyLookup [("prompt_tokens", .int 7)] "prompt_tokens").getD (.int 0)),
           ("prompt_tokens_stdev", (pyLookup [("prompt_tokens", .int 7)] "prompt_tokens_stdev").getD (.int 0)),
           ("output_tokens", (pyLookup [("prompt_tokens", .int 7)] "output_tokens").getD (.int 0)),
           ("output_tokens_stdev", (pyLookup [("prompt_tokens", .int 7)] "output_tokens_stdev").getD (.int 0)),
           ("processor", dsGet [("data", .str "\x7b\x22prompt_tokens\x22: 7\x7d")] "processor" (.str ""))] :=
  (extract_dataset_settings_json_branch [("data", .str "\x7b\x22prompt_tokens\x22: 7\x7d")]
    "\x7b\x22prompt_tokens\x22: 7\x7d" (by decide) (by decide) (by decide)).1
    [("prompt_tokens", .int 7)] (by decide)

theorem pyBind_ok {α β : Type} (a : α) (f : α → Except PErr β) :
    pyBind (.ok a) f = f a := rfl

theorem parseBenchmarkEntry_ok_some (e : PyVal) (row : SummaryRow)
    (h : parseBenchmarkEntry e = .ok (some row)) :
    ∃ ax ds mp, entryAxis e = .ok ax ∧ ¬(ax.1 = PyVal.none ∧ ax.2 = PyVal.none) ∧
      entryDataset e = .ok ds ∧ entryMetrics e = .ok mp ∧
      row = mkSummaryRow ax ds mp := by
  unfold parseBenchmarkEntry at h
  rw [pyBind_ok_iff] at h
  obtain ⟨ax, hax, h2⟩ := h
  by_cases hc : ax.1 = PyVal.none ∧ ax.2 = PyVal.none
  · rw [if_pos hc] at h2
    exact absurd h2 (by simp)
  · rw [if_neg hc] at h2
    rw [pyBind_ok_iff] at h2
    obtain ⟨ds, hds, h3⟩ := h2
    rw [pyBind_ok_iff] at h3
    obtain ⟨mp, hmp, h4⟩ := h3
    refine ⟨ax, ds, mp, hax, hc, hds, hmp, ?_⟩
    simp only [Except.ok.injEq, Option.some.injEq] at h4
    exact h4.symm

theorem parseBenchmarkEntry_skip (e : PyVal)
    (hax : entryAxis e = .ok (PyVal.none, PyVal.none)) :
    parseBenchmarkEntry e = .ok Option.none := by
  unfold parseBenchmarkEntry
  rw [hax, pyBind_ok, if_pos ⟨rfl, rfl⟩]

theorem processOneRequest_ok (c r : PyVal) (ds : List (String × PyVal))
    (tst q : PyVal) (row : RequestRow)
    (h : processOneRequest c r ds tst q = .ok row) :
    ∃ g rels, requestFields q = .ok g ∧ requestRels g tst = .ok rels ∧
      row = mkRequestRow c r ds g rels := by
  unfold processOneRequest at h
  rw [pyBind_ok_iff] at h
  obtain ⟨g, hg, h2⟩ := h
  rw [pyBind_ok_iff] at h2
  obtain ⟨rels, hrels, h3⟩ := h2
  simp only [Except.ok.injEq] at h3
  exact ⟨g, rels, hg, hrels, h3.symm⟩

theorem mapRequests_mem (f : PyVal → Except PErr RequestRow) :
    ∀ (qs : List PyVal) (rows : List RequestRow) (row : RequestRow),
      mapRequests f qs = .ok rows → row ∈ rows → ∃ q, q ∈ qs ∧ f q = .ok row
  | [], rows, row, h, hm => by
      simp only [mapRequests, Except.ok.injEq] at h
      subst h
      exact absurd hm (List.not_mem_nil row)
  | q :: qs, rows, row, h, hm => by
      simp only [mapRequests] at h
      rw [pyBind_ok_iff] at h
      obtain ⟨a, hfq, h2⟩ := h
      rw [pyBind_ok_iff] at h2
      obtain ⟨rows2, hmap, h3⟩ := h2
      simp only [Except.ok.injEq] at h3
      subst h3
      rcases List.mem_cons.mp hm with h4 | h4
      · exact ⟨q, List.mem_cons_self q qs, h4 ▸ hfq⟩
      · obtain ⟨q2, hq2, hfq2⟩ := mapRequests_mem f qs rows2 row hmap h4
        exact ⟨q2, List.mem_cons_of_mem q hq2, hfq2⟩

theorem truthyBranchNotSome (v : PyVal) (rows : List RequestRow)
    (h : (if v.truthy = true then Except.error PErr.typeError
          else Except.ok (Option.none : Option (List RequestRow))) = Except.ok (some rows)) :
    False := by
  split at h <;> simp at h

theorem parseIndividualEntry_ok_some (e : PyVal) (rows : List RequestRow)
    (h : parseIndividualEntry e = .ok (some rows)) :
    ∃ tst ax ds qs, entryStartTime e = .ok tst ∧ entryAxis e = .ok ax ∧
      ¬(ax.1 = PyVal.none ∧ ax.2 = PyVal.none) ∧ entryDataset e = .ok ds ∧
      mapRequests (processOneRequest ax.1 ax.2 ds tst) qs = .ok rows := by
  unfold parseIndividualEntry at h
  rw [pyBind_ok_iff] at h
  obtain ⟨tst, htst, h2⟩ := h
  rw [pyBind_ok_iff] at h2
  obtain ⟨ax, hax, h3⟩ := h2
  by_cases hc : ax.1 = PyVal.none ∧ ax.2 = PyVal.none
  · rw [if_pos hc] at h3
    exact absurd h3 (by simp)
  · rw [if_neg hc] at h3
    rw [pyBind_ok_iff] at h3
    obtain ⟨ds, hds, h4⟩ := h3
    rw [pyBind_ok_iff] at h4
    obtain ⟨requests, hreq, h5⟩ := h4
    rw [pyBind_ok_iff] at h5
    obtain ⟨succ, hsucc, h6⟩ := h5
    refine ⟨tst, ax, ds, ?_⟩
    rcases succ with _ | b | n | s | xs | d
    · exact (truthyBranchNotSome PyVal.none rows h6).elim
    · exact (truthyBranchNotSome (PyVal.bool b) rows h6).elim
    · exact (truthyBranchNotSome (PyVal.int n) rows h6).elim
    · exact (truthyBranchNotSome (PyVal.str s) rows h6).elim
    · rcases xs with _ | ⟨q, qs⟩
      · exact absurd
          (show Except.ok (Option.none : Option (List RequestRow)) = Except.ok (some rows) from h6)
          (by simp)
      · have h7 : pyBind (mapRequests (processOneRequest ax.1 ax.2 ds tst) (q :: qs))
            (fun rows2 => Except.ok (some rows2)) = Except.ok (some rows) := h6
        rw [pyBind_ok_iff] at h7
        obtain ⟨rows2, hmap, h8⟩ := h7
        simp only [Except.ok.injEq, Option.some.injEq] at h8
        subst h8
        exact ⟨q :: qs, htst, hax, hc, hds, hmap⟩
    · exact (truthyBranchNotSome (PyVal.dict d) rows h6).elim

theorem parseIndividualEntry_skip (e : PyVal) (tst : PyVal)
    (htst : entryStartTime e = .ok tst)
    (hax : entryAxis e = .ok (PyVal.none, PyVal.none)) :
    parseIndividualEntry e = .ok Option.none := by
  unfold parseIndividualEntry
  rw [htst, pyBind_ok, hax, pyBind_ok, if_pos ⟨rfl, rfl⟩]

/-- C1 counterexample: a benchmark entry whose strategy carries both
max_concurrency 4 and a constant rate 2 is emitted as a summary row whose
concurrency and rps fields are both non-null, so an emitted row can carry
two non-null axis values. -/
theorem summary_row_with_both_axes :
    (emittedSummary (parseBenchmarkEntry entryBothAxes)).map SummaryRow.concurrency =
        some (.int 4) ∧
      (emittedSummary (parseBenchmarkEntry entryBothAxes)).map SummaryRow.rps =
        some (.int 2) := by
  decide

/-- C1 as amended. Axis presence: every row emitted by summary extraction or
per-request extraction carries at least one non-null value between
concurrency and rps, and an entry resolving to neither is skipped; a row
with both values non-null is possible (see the counterexample), so "at
least one", not "exactly one", is the invariant the code maintains. -/
theorem axis_presence :
    (∀ e row, parseBenchmarkEntry e = .ok (some row) →
      ¬(row.concurrency = PyVal.none ∧ row.rps = PyVal.none)) ∧
    (∀ e rows row, parseIndividualEntry e = .ok (some rows) → row ∈ rows →
      ¬(row.concurrency = PyVal.none ∧ row.rps = PyVal.none)) ∧
    (∀ e, entryAxis e = .ok (PyVal.none, PyVal.none) →
      parseBenchmarkEntry e = .ok Option.none) ∧
    (∀ e tst, entryAxis e = .ok (PyVal.none, PyVal.none) →
      entryStartTime e = .ok tst → parseIndividualEntry e = .ok Option.none) := by
  refine ⟨?_, ?_, ?_, ?_⟩
  · intro e row h
    obtain ⟨ax, ds, mp, hax, hc, hds, hmp, hrow⟩ := parseBenchmarkEntry_ok_some e row h
    subst hrow
    exact hc
  · intro e rows row h hm
    obtain ⟨tst, ax, ds, qs, htst, hax, hc, hds, hmap⟩ :=
      parseIndividualEntry_ok_some e rows h
    obtain ⟨q, hq, hfq⟩ := mapRequests_mem _ qs rows row hmap hm
    obtain ⟨g, rels, hg, hrels, hrow⟩ := processOneRequest_ok ax.1 ax.2 ds tst q row hfq
    subst hrow
    exact hc
  · intro e hax
    exact parseBenchmarkEntry_skip e hax
  · intro e tst hax htst
    exact parseIndividualEntry_skip e tst htst hax

/-- Witness for C1 as amended: an entry with no axis information is skipped
by both extractors. -/
theorem axis_presence_witness :
    entryAxis (.dict []) = .ok (PyVal.none, PyVal.none) ∧
      parseBenchmarkEntry (.dict []) = .ok Option.none ∧
      parseIndividualEntry (.dict []) = .ok Option.none :=
  ⟨by decide, axis_presence.2.2.1 (.dict []) (by decide),
   axis_presence.2.2.2 (.dict []) PyVal.none (by decide) (by decide)⟩

theorem pathLookup_cons (d : List (String × PyVal)) (k : String) (ks : List String)
    (v : PyVal) (h : pathLookup (.dict d) (k :: ks) = some v) :
    ∃ w, pyLookup d k = some w ∧ pathLookup w ks = some v := by
  unfold pathLookup at h
  cases hw : pyLookup d k with
  | none => rw [hw] at h; exact absurd h (by simp)
  | some w => rw [hw] at h; exact ⟨w, rfl, h⟩

theorem pathLookup_nil (w v : PyVal) (h : pathLookup w [] = some v) : w = v := by
  simpa [pathLookup] using h

theorem pathLookup_dict_of_cons (w : PyVal) (k : String) (ks : List String)
    (v : PyVal) (h : pathLookup w (k :: ks) = some v) :
    ∃ d, w = PyVal.dict d := by
  cases w with
  | dict d => exact ⟨d, rfl⟩
  | none => exact absurd h (by simp [pathLookup])
  | bool b => exact absurd h (by simp [pathLookup])
  | int n => exact absurd h (by simp [pathLookup])
  | str s => exact absurd h (by simp [pathLookup])
  | list xs => exact absurd h (by simp [pathLookup])

theorem metricMean_eq (m bk sb tb : List (String × PyVal)) (key : String)
    (hm : pyLookup m key = some (.dict bk))
    (hs : pyLookup bk "successful" = some (.dict sb))
    (ht : pyLookup bk "total" = some (.dict tb)) :
    metricMean (.dict m) key =
      .ok (if pyEq ((pyLookup sb "mean").getD (.int 0)) (.int 0) = true
           then (pyLookup tb "mean").getD (.int 0)
           else (pyLookup sb "mean").getD (.int 0)) := by
  unfold metricMean
  rw [getD_dict, hm]
  simp only [Option.getD_some, pyBind_ok]
  rw [getD_dict, hs]
  simp only [Option.getD_some, pyBind_ok]
  rw [getD_dict]
  simp only [Option.getD_some, pyBind_ok]
  by_cases hq : pyEq ((pyLookup sb "mean").getD (.int 0)) (.int 0) = true
  · rw [if_pos hq, if_pos hq, getD_dict, ht]
    simp only [Option.getD_some, pyBind_ok]
    rw [getD_dict]
  · rw [if_neg hq, if_neg hq]

theorem entryMetrics_ok_means (b : PyVal) (mp : MetricsPart)
    (h : entryMetrics b = .ok mp) :
    ∃ metrics, b.getD "metrics" (.dict []) = .ok metrics ∧
      metricMean metrics "output_tokens_per_second" = .ok mp.output_tps ∧
      metricMean metrics "tokens_per_second" = .ok mp.total_tps := by
  unfold entryMetrics at h
  rw [pyBind_ok_iff] at h
  obtain ⟨metrics, hmet, h⟩ := h
  rw [pyBind_ok_iff] at h
  obtain ⟨otps, hotps, h⟩ := h
  rw [pyBind_ok_iff] at h
  obtain ⟨ttps, httys, h⟩ := h
  rw [pyBind_ok_iff] at h
  obtain ⟨x4, hx4, h⟩ := h
  rw [pyBind_ok_iff] at h
  obtain ⟨x5, hx5, h⟩ := h
  rw [pyBind_ok_iff] at h
  obtain ⟨x6, hx6, h⟩ := h
  rw [pyBind_ok_iff] at h
  obtain ⟨x7, hx7, h⟩ := h
  rw [pyBind_ok_iff] at h
  obtain ⟨x8, hx8, h⟩ := h
  rw [pyBind_ok_iff] at h
  obtain ⟨x9, hx9, h⟩ := h
  rw [pyBind_ok_iff] at h
  obtain ⟨x10, hx10, h⟩ := h
  rw [pyBind_ok_iff] at h
  obtain ⟨x11, hx11, h⟩ := h
  rw [pyBind_ok_iff] at h
  obtain ⟨x12, hx12, h⟩ := h
  rw [pyBind_ok_iff] at h
  obtain ⟨x13, hx13, h⟩ := h
  rw [pyBind_ok_iff] at h
  obtain ⟨x14, hx14, h⟩ := h
  rw [pyBind_ok_iff] at h
  obtain ⟨x15, hx15, h⟩ := h
  rw [pyBind_ok_iff] at h
  obtain ⟨x16, hx16, h⟩ := h
  rw [pyBind_ok_iff] at h
  obtain ⟨x17, hx17, h⟩ := h
  rw [pyBind_ok_iff] at h
  obtain ⟨x18, hx18, h⟩ := h
  rw [pyBind_ok_iff] at h
  obtain ⟨x19, hx19, h⟩ := h
  rw [pyBind_ok_iff] at h
  obtain ⟨x20, hx20, h⟩ := h
  rw [pyBind_ok_iff] at h
  obtain ⟨x21, hx21, h⟩ := h
  rw [pyBind_ok_iff] at h
  obtain ⟨x22, hx22, h⟩ := h
  rw [pyBind_ok_iff] at h
  obtain ⟨x23, hx23, h⟩ := h
  rw [pyBind_ok_iff] at h
  obtain ⟨x24, hx24, h⟩ := h
  rw [pyBind_ok_iff] at h
  obtain ⟨x25, hx25, h⟩ := h
  simp only [Except.ok.injEq] at h
  subst h
  exact ⟨metrics, hmet, hotps, httys⟩

/-- C4. Zero-successful fallback for throughput: when a summary row is
emitted from an entry whose metrics hold successful and total buckets for
output-tokens/sec and total-tokens/sec, the row's mean throughput field is
the successful bucket's mean, except that a successful mean equal to 0 (also
the default when the mean is absent) is replaced by the total bucket's
mean. -/
theorem throughput_successful_total_fallback (b : List (String × PyVal))
    (row : SummaryRow) (h : parseBenchmarkEntry (.dict b) = .ok (some row))
    (sb tb sb2 tb2 : List (String × PyVal))
    (hs : pathLookup (.dict b) ["metrics", "output_tokens_per_second", "successful"] =
      some (.dict sb))
    (ht : pathLookup (.dict b) ["metrics", "output_tokens_per_second", "total"] =
      some (.dict tb))
    (hs2 : pathLookup (.dict b) ["metrics", "tokens_per_second", "successful"] =
      some (.dict sb2))
    (ht2 : pathLookup (.dict b) ["metrics", "tokens_per_second", "total"] =
      some (.dict tb2)) :
    row.mean_output_tokens_per_second =
      (if pyEq ((pyLookup sb "mean").getD (.int 0)) (.int 0) = true
       then (pyLookup tb "mean").getD (.int 0)
       else (pyLookup sb "mean").getD (.int 0)) ∧
    row.mean_total_tokens_per_second =
      (if pyEq ((pyLookup sb2 "mean").getD (.int 0)) (.int 0) = true
       then (pyLookup tb2 "mean").getD (.int 0)
       else (pyLookup sb2 "mean").getD (.int 0)) := by
  obtain ⟨ax, ds, mp, hax, hc, hds, hmp, hrow⟩ := parseBenchmarkEntry_ok_some _ row h
  obtain ⟨metrics, hmet, hout, htot⟩ := entryMetrics_ok_means _ mp hmp
  obtain ⟨mv, hmv, hrest⟩ := pathLookup_cons b "metrics" _ _ hs
  obtain ⟨m, hmeq⟩ := pathLookup_dict_of_cons mv _ _ _ hrest
  subst hmeq
  obtain ⟨bv, hbv, hrest2⟩ := pathLookup_cons m "output_tokens_per_second" _ _ hrest
  obtain ⟨bk, hbkeq⟩ := pathLookup_dict_of_cons bv _ _ _ hrest2
  subst hbkeq
  obtain ⟨sv, hsv, hrest3⟩ := pathLookup_cons bk "successful" _ _ hrest2
  have hsveq := pathLookup_nil _ _ hrest3
  subst hsveq
  obtain ⟨mv2, hmv2, hrestT⟩ := pathLookup_cons b "metrics" _ _ ht
  rw [hmv] at hmv2
  have hmv2eq := Option.some.inj hmv2
  subst hmv2eq
  obtain ⟨bv2, hbv2, hrestT2⟩ := pathLookup_cons m "output_tokens_per_second" _ _ hrestT
  rw [hbv] at hbv2
  have hbv2eq := Option.some.inj hbv2
  subst hbv2eq
  obtain ⟨tv, htv, hrestT3⟩ := pathLookup_cons bk "total" _ _ hrestT2
  have htveq := pathLookup_nil _ _ hrestT3
  subst htveq
  obtain ⟨mv3, hmv3, hrestS2⟩ := pathLookup_cons b "metrics" _ _ hs2
  rw [hmv] at hmv3
  have hmv3eq := Option.some.inj hmv3
  subst hmv3eq
  obtain ⟨bv3, hbv3, hrestS22⟩ := pathLookup_cons m "tokens_per_second" _ _ hrestS2
  obtain ⟨bk2, hbk2eq⟩ := pathLookup_dict_of_cons bv3 _ _ _ hrestS22
  subst hbk2eq
  obtain ⟨sv2, hsv2c, hrestS23⟩ := pathLookup_cons bk2 "successful" _ _ hrestS22
  have hsv2eq := pathLookup_nil _ _ hrestS23
  subst hsv2eq
  obtain ⟨mv4, hmv4, hrestT4⟩ := pathLookup_cons b "metrics" _ _ ht2
  rw [hmv] at hmv4
  have hmv4eq := Option.some.inj hmv4
  subst hmv4eq
  obtain ⟨bv4, hbv4, hrestT42⟩ := pathLookup_cons m "tokens_per_second" _ _ hrestT4
  rw [hbv3] at hbv4
  have hbv4eq := Option.some.inj hbv4
  subst hbv4eq
  obtain ⟨tv2, htv2, hrestT43⟩ := pathLookup_cons bk2 "total" _ _ hrestT42
  have htv2eq := pathLookup_nil _ _ hrestT43
  subst htv2eq
  rw [getD_dict, hmv] at hmet
  simp only [Option.getD_some, Except.ok.injEq] at hmet
  subst hmet
  rw [metricMean_eq m bk sb tb _ hbv hsv htv] at hout
  rw [metricMean_eq m bk2 sb2 tb2 _ hbv3 hsv2c htv2] at htot
  simp only [Except.ok.injEq] at hout htot
  subst hrow
  exact ⟨hout.symm, htot.symm⟩

/-- A benchmark entry with successful output-throughput mean 0 and total
mean 42, and successful total-throughput mean 9. -/
def entryC4 : List (String × PyVal) :=
  [("config", .dict [("strategy", .dict [("max_concurrency", .int 2)])]),
   ("metrics", .dict
     [("output_tokens_per_second", .dict
        [("successful", .dict [("mean", .int 0)]), ("total", .dict [("mean", .int 42)])]),
      ("tokens_per_second", .dict
        [("successful", .dict [("mean", .int 9)]), ("total", .dict [("mean", .int 3)])])])]

/-- The summary row extraction emits for entryC4. -/
def rowC4 : SummaryRow :=
  mkSummaryRow (.int 2, PyVal.none) []
    { output_tps := .int 42, total_tps := .int 9, rl_mean := .int 0, rl_median := .int 0,
      ttft_mean := .int 0, ttft_median := .int 0, itl_mean := .int 0, itl_median := .int 0,
      rl_p95 := .int 0, rl_p99 := .int 0, ttft_p95 := .int 0, ttft_p99 := .int 0,
      itl_p95 := .int 0, itl_p99 := .int 0, isl := .int 0, osl := .int 0 }

/-- Witness for C4 at the concrete scenario with successful mean 0 and total
mean 42 yielding 42. -/
theorem throughput_fallback_witness :
    rowC4.mean_output_tokens_per_second =
      (if pyEq ((pyLookup [("mean", PyVal.int 0)] "mean").getD (.int 0)) (.int 0) = true
       then (pyLookup [("mean", PyVal.int 42)] "mean").getD (.int 0)
       else (pyLookup [("mean", PyVal.int 0)] "mean").getD (.int 0)) ∧
    rowC4.mean_total_tokens_per_second =
      (if pyEq ((pyLookup [("mean", PyVal.int 9)] "mean").getD (.int 0)) (.int 0) = true
       then (pyLookup [("mean", PyVal.int 3)] "mean").getD (.int 0)
       else (pyLookup [("mean", PyVal.int 9)] "mean").getD (.int 0)) :=
  throughput_successful_total_fallback entryC4 rowC4 (by decide)
    [("mean", PyVal.int 0)] [("mean", PyVal.int 42)]
    [("mean", PyVal.int 9)] [("mean", PyVal.int 3)]
    (by decide) (by decide) (by decide) (by decide)

theorem requestFields_dict (q : List (String × PyVal)) :
    requestFields (.dict q) =
      .ok { start_time := (pyLookup q "request_start_time").getD
              ((pyLookup q "start_time").getD (.int 0)),
            end_time := (pyLookup q "request_end_time").getD
              ((pyLookup q "end_time").getD (.int 0)),
            request_id := (pyLookup q "request_id").getD (.str ""),
            prompt_tokens := (pyLookup q "prompt_tokens").getD (.int 0),
            output_tokens := (pyLookup q "output_tokens").getD (.int 0),
            request_latency := (pyLookup q "request_latency").getD (.int 0),
            ttft := (pyLookup q "time_to_first_token_ms").getD (.int 0),
            itl := (pyLookup q "inter_token_latency_ms").getD (.int 0),
            tps := (pyLookup q "tokens_per_second").getD (.int 0),
            otps := (pyLookup q "output_tokens_per_second").getD (.int 0),
            first_token_time := (pyLookup q "first_token_time").getD (.int 0) } := rfl

theorem relTime_ok_int (a t v : PyVal) (h : relTime a t = .ok v) :
    ∃ k : Int, v = PyVal.int k := by
  unfold relTime at h
  rw [pyBind_ok_iff] at h
  obtain ⟨pos, hpos, h2⟩ := h
  cases pos with
  | true =>
      rw [if_pos rfl] at h2
      unfold pySub at h2
      cases hna : a.toNum with
      | none => rw [hna] at h2; exact absurd h2 (by simp)
      | some m =>
          cases hnt : t.toNum with
          | none => rw [hna, hnt] at h2; exact absurd h2 (by simp)
          | some n =>
              rw [hna, hnt] at h2
              simp only [Except.ok.injEq] at h2
              exact ⟨m - n, h2.symm⟩
  | false =>
      rw [if_neg (by simp)] at h2
      simp only [Except.ok.injEq] at h2
      exact ⟨0, h2.symm⟩

theorem relTime_int (a T : Int) :
    relTime (.int a) (.int T) =
      .ok (if 0 < a then PyVal.int (a - T) else PyVal.int 0) := by
  unfold relTime pyGtZero
  show pyBind (.ok (decide (0 < a))) _ = _
  rw [pyBind_ok]
  by_cases hp : 0 < a
  · rw [if_pos (by simpa using hp), if_pos hp]
    rfl
  · rw [if_neg (by simpa using hp), if_neg hp]

theorem requestRels_some_int (g : ReqFields) (tst : PyVal)
    (rels : PyVal × PyVal × PyVal) (h : requestRels g tst = .ok rels) :
    (∃ k : Int, rels.1 = PyVal.int k) ∧ (∃ k : Int, rels.2.1 = PyVal.int k) ∧
      (∃ k : Int, rels.2.2 = PyVal.int k) := by
  unfold requestRels at h
  by_cases ht : tst = PyVal.none
  · rw [if_pos ht] at h
    simp only [Except.ok.injEq] at h
    subst h
    exact ⟨⟨0, rfl⟩, ⟨0, rfl⟩, ⟨0, rfl⟩⟩
  · rw [if_neg ht] at h
    rw [pyBind_ok_iff] at h
    obtain ⟨ftr, hftr, h2⟩ := h
    rw [pyBind_ok_iff] at h2
    obtain ⟨str2, hstr, h3⟩ := h2
    rw [pyBind_ok_iff] at h3
    obtain ⟨etr, hetr, h4⟩ := h3
    simp only [Except.ok.injEq] at h4
    subst h4
    exact ⟨relTime_ok_int _ _ _ hftr, relTime_ok_int _ _ _ hstr,
      relTime_ok_int _ _ _ hetr⟩

/-- C5. Relative-time fill: for every successful request that produces a
row, the three relative timestamps are always integers (never null); when no
run start time is known they are all 0; and when the run start time is a
known number, each relative field equals the absolute value minus the run
start exactly when the absolute value is strictly positive and 0 otherwise
(in particular an absolute start time of 0 gives a relative time of 0, not a
negative value). -/
theorem relative_time_fill (c r : PyVal) (ds : List (String × PyVal))
    (tst q : PyVal) (row : RequestRow)
    (h : processOneRequest c r ds tst q = .ok row) :
    ((∃ k : Int, row.first_token_time_relative = PyVal.int k) ∧
     (∃ k : Int, row.start_time_relative = PyVal.int k) ∧
     (∃ k : Int, row.end_time_relative = PyVal.int k)) ∧
    (tst = PyVal.none →
      row.first_token_time_relative = .int 0 ∧ row.start_time_relative = .int 0 ∧
        row.end_time_relative = .int 0) ∧
    (∀ T : Int, tst = .int T →
      (∀ a : Int, row.start_time = .int a →
        row.start_time_relative = (if 0 < a then PyVal.int (a - T) else PyVal.int 0)) ∧
      (∀ a : Int, row.first_token_time = .int a →
        row.first_token_time_relative = (if 0 < a then PyVal.int (a - T) else PyVal.int 0)) ∧
      (∀ a : Int, row.end_time = .int a →
        row.end_time_relative = (if 0 < a then PyVal.int (a - T) else PyVal.int 0))) := by
  obtain ⟨g, rels, hg, hrels, hrow⟩ := processOneRequest_ok c r ds tst q row h
  subst hrow
  refine ⟨requestRels_some_int g tst rels hrels, ?_, ?_⟩
  · intro ht
    subst ht
    unfold requestRels at hrels
    rw [if_pos rfl] at hrels
    simp only [Except.ok.injEq] at hrels
    subst hrels
    exact ⟨rfl, rfl, rfl⟩
  · intro T hT
    subst hT
    unfold requestRels at hrels
    rw [if_neg (by simp)] at hrels
    rw [pyBind_ok_iff] at hrels
    obtain ⟨ftr, hftr, h2⟩ := hrels
    rw [pyBind_ok_iff] at h2
    obtain ⟨str2, hstr, h3⟩ := h2
    rw [pyBind_ok_iff] at h3
    obtain ⟨etr, hetr, h4⟩ := h3
    simp only [Except.ok.injEq] at h4
    subst h4
    refine ⟨?_, ?_, ?_⟩
    · intro a ha
      have ha2 : g.start_time = .int a := ha
      rw [ha2, relTime_int] at hstr
      simp only [Except.ok.injEq] at hstr
      exact hstr.symm
    · intro a ha
      have ha2 : g.first_token_time = .int a := ha
      rw [ha2, relTime_int] at hftr
      simp only [Except.ok.injEq] at hftr
      exact hftr.symm
    · intro a ha
      have ha2 : g.end_time = .int a := ha
      rw [ha2, relTime_int] at hetr
      simp only [Except.ok.injEq] at hetr
      exact hetr.symm

/-- A request with absolute start time 0, first token at 12 and end at 15. -/
def reqC5 : PyVal :=
  .dict [("request_start_time", .int 0), ("request_end_time", .int 15),
         ("first_token_time", .int 12)]

/-- The row per-request extraction produces for reqC5 under run start 10. -/
def rowC5 : RequestRow :=
  mkRequestRow (.int 2) PyVal.none []
    { start_time := .int 0, end_time := .int 15, request_id := .str "",
      prompt_tokens := .int 0, output_tokens := .int 0, request_latency := .int 0,
      ttft := .int 0, itl := .int 0, tps := .int 0, otps := .int 0,
      first_token_time := .int 12 }
    (.int 2, .int 0, .int 5)

/-- Witness for C5: with run start 10, a start time of 0 fills relative 0
and a first-token time of 12 yields relative 2. -/
theorem relative_time_fill_witness :
    rowC5.start_time_relative = (if (0 : Int) < 0 then PyVal.int (0 - 10) else PyVal.int 0) ∧
      rowC5.first_token_time_relative =
        (if (0 : Int) < 12 then PyVal.int (12 - 10) else PyVal.int 0) :=
  ⟨((relative_time_fill (.int 2) PyVal.none [] (.int 10) reqC5 rowC5
      (by decide)).2.2 10 rfl).1 0 (by decide),
   ((relative_time_fill (.int 2) PyVal.none [] (.int 10) reqC5 rowC5
      (by decide)).2.2 10 rfl).2.1 12 (by decide)⟩

/-- C3. Fallback precedence: when the Variant-A value is present (and, for
the mapping-valued fields, non-empty), the resolved strategy, profile,
loader argument and per-request timestamps equal the Variant-A value
whatever the Variant-B fields hold: config.strategy beats args.strategy,
config.profile beats args.profile, config.requests beats request_loader, and
request_start_time / request_end_time beat start_time / end_time. -/
theorem variant_a_precedence :
    (∀ (c : List (String × PyVal)) (args sA : PyVal),
      pyLookup c "strategy" = some sA → sA.truthy = true →
      resolveStrategy (.dict c) args = .ok sA) ∧
    (∀ (c : List (String × PyVal)) (args pA : PyVal),
      pyLookup c "profile" = some pA → pA.truthy = true →
      resolveProfile (.dict c) args = .ok pA) ∧
    (∀ (b c : List (String × PyVal)) (rc : PyVal),
      pyLookup b "config" = some (.dict c) → pyLookup c "requests" = some rc →
      rc.truthy = true → entryLoaderArg (.dict b) = .ok rc) ∧
    (∀ (q : List (String × PyVal)) (v : PyVal) (g : ReqFields),
      pyLookup q "request_start_time" = some v → requestFields (.dict q) = .ok g →
      g.start_time = v) ∧
    (∀ (q : List (String × PyVal)) (v : PyVal) (g : ReqFields),
      pyLookup q "request_end_time" = some v → requestFields (.dict q) = .ok g →
      g.end_time = v) := by
  refine ⟨?_, ?_, ?_, ?_, ?_⟩
  · intro c args sA h h2
    unfold resolveStrategy
    rw [getD_dict, h]
    simp only [Option.getD_some, pyBind_ok]
    rw [if_pos h2]
  · intro c args pA h h2
    unfold resolveProfile
    rw [getD_dict, h]
    simp only [Option.getD_some, pyBind_ok]
    rw [if_pos h2]
  · intro b c rc hb hr ht
    unfold entryLoaderArg
    rw [getD_dict, hb]
    simp only [Option.getD_some, pyBind_ok]
    rw [getD_dict, hr]
    simp only [Option.getD_some, pyBind_ok]
    rw [getD_dict]
    simp only [pyBind_ok]
    rw [if_pos ht]
  · intro q v g h hg
    rw [requestFields_dict] at hg
    simp only [Except.ok.injEq] at hg
    subst hg
    show (pyLookup q "request_start_time").getD _ = v
    rw [h]
    rfl
  · intro q v g h hg
    rw [requestFields_dict] at hg
    simp only [Except.ok.injEq] at hg
    subst hg
    show (pyLookup q "request_end_time").getD _ = v
    rw [h]
    rfl

/-- Witness for C3 at concrete entries holding both variants with different
values: the Variant-A value is returned each time. -/
theorem variant_a_precedence_witness :
    resolveStrategy (.dict [("strategy", .dict [("max_concurrency", .int 4)])])
        (.dict [("strategy", .dict [("streams", .int 8)])]) =
      .ok (.dict [("max_concurrency", .int 4)]) ∧
    resolveProfile (.dict [("profile", .dict [("strategy_type", .str "constant")])])
        (.dict [("profile", .dict [("strategy_type", .str "synchronous")])]) =
      .ok (.dict [("strategy_type", .str "constant")]) ∧
    entryLoaderArg (.dict
        [("config", .dict [("requests", .dict [("data", .str "a")])]),
         ("request_loader", .dict [("data", .str "b")])]) =
      .ok (.dict [("data", .str "a")]) ∧
    ({ start_time := .int 5, end_time := .int 16, request_id := .str "",
       prompt_tokens := .int 0, output_tokens := .int 0, request_latency := .int 0,
       ttft := .int 0, itl := .int 0, tps := .int 0, otps := .int 0,
       first_token_time := .int 0 } : ReqFields).start_time = .int 5 :=
  ⟨variant_a_precedence.1 _ _ _ (by decide) (by decide),
   variant_a_precedence.2.1 _ _ _ (by decide) (by decide),
   variant_a_precedence.2.2.1
     [("config", .dict [("requests", .dict [("data", .str "a")])]),
      ("request_loader", .dict [("data", .str "b")])]
     [("requests", .dict [("data", .str "a")])] (.dict [("data", .str "a")])
     (by decide) (by decide) (by decide),
   variant_a_precedence.2.2.2.1
     [("request_start_time", .int 5), ("start_time", .int 9),
      ("request_end_time", .int 16), ("end_time", .int 20)] (.int 5) _
     (by decide) (by decide)⟩

/-- C10 counterexample: an entry with an empty config.requests and a JSON
null request_loader (so neither sub-tree is non-empty) makes the extractor
pass None to extract_dataset_settings, and the emitted row carries the
400/200 multiturn default record rather than all-zero settings. -/
theorem default_settings_reachable :
    (emittedSummary (parseBenchmarkEntry entryNullLoader)).map SummaryRow.prompt_tokens =
        some (.int 400) ∧
      (emittedSummary (parseBenchmarkEntry entryNullLoader)).map SummaryRow.output_tokens =
        some (.int 200) ∧
      (emittedSummary (parseBenchmarkEntry entryNullLoader)).map SummaryRow.processor =
        some (.str "multiturn") ∧
      pathLookup entryNullLoader ["config", "requests"] = Option.none ∧
      pathLookup entryNullLoader ["request_loader"] = some PyVal.none ∧
      entryLoaderArg entryNullLoader = .ok PyVal.none := by
  decide

/-- C10 as amended. Loader-argument defaults: when the loader argument both
extractors build is the empty dict (config.requests falsy and the
request_loader key absent or an empty dict), emitted rows carry prompt and
output token settings 0, stdevs 0 and an empty processor; but when the
request_loader key holds JSON null, the argument is None and the emitted row
carries the 400/200 multiturn default record, which is therefore reachable
through the extraction entry points. -/
theorem empty_loader_zero_settings :
    (∀ e row, entryLoaderArg e = .ok (.dict []) →
      parseBenchmarkEntry e = .ok (some row) →
      row.prompt_tokens = .int 0 ∧ row.prompt_tokens_stdev = .int 0 ∧
        row.output_tokens = .int 0 ∧ row.output_tokens_stdev = .int 0 ∧
        row.processor = .str "") ∧
    (∀ e rows row, entryLoaderArg e = .ok (.dict []) →
      parseIndividualEntry e = .ok (some rows) → row ∈ rows →
      row.dataset_prompt_tokens = .int 0 ∧ row.dataset_output_tokens = .int 0) ∧
    (∀ e row, entryLoaderArg e = .ok PyVal.none →
      parseBenchmarkEntry e = .ok (some row) →
      row.prompt_tokens = .int 400 ∧ row.output_tokens = .int 200 ∧
        row.processor = .str "multiturn") := by
  refine ⟨?_, ?_, ?_⟩
  · intro e row hla h
    obtain ⟨ax, ds, mp, hax, hc, hds, hmp, hrow⟩ := parseBenchmarkEntry_ok_some e row h
    unfold entryDataset at hds
    rw [hla, pyBind_ok] at hds
    have hext : extract_dataset_settings (.dict []) = .ok [] := by decide
    rw [hext] at hds
    simp only [Except.ok.injEq] at hds
    subst hds
    subst hrow
    exact ⟨rfl, rfl, rfl, rfl, rfl⟩
  · intro e rows row hla h hm
    obtain ⟨tst, ax, ds, qs, htst, hax, hc, hds, hmap⟩ :=
      parseIndividualEntry_ok_some e rows h
    unfold entryDataset at hds
    rw [hla, pyBind_ok] at hds
    have hext : extract_dataset_settings (.dict []) = .ok [] := by decide
    rw [hext] at hds
    simp only [Except.ok.injEq] at hds
    subst hds
    obtain ⟨q, hq, hfq⟩ := mapRequests_mem _ qs rows row hmap hm
    obtain ⟨g, rels, hg, hrels, hrow⟩ := processOneRequest_ok ax.1 ax.2 [] tst q row hfq
    subst hrow
    exact ⟨rfl, rfl⟩
  · intro e row hla h
    obtain ⟨ax, ds, mp, hax, hc, hds, hmp, hrow⟩ := parseBenchmarkEntry_ok_some e row h
    unfold entryDataset at hds
    rw [hla, pyBind_ok] at hds
    have hext : extract_dataset_settings PyVal.none = .ok defaultDatasetSettings := by decide
    rw [hext] at hds
    simp only [Except.ok.injEq] at hds
    subst hds
    subst hrow
    exact ⟨rfl, rfl, rfl⟩

/-- The all-zero metric snapshot of an entry with no metrics mapping. -/
def zeroMetrics : MetricsPart :=
  { output_tps := .int 0, total_tps := .int 0, rl_mean := .int 0, rl_median := .int 0,
    ttft_mean := .int 0, ttft_median := .int 0, itl_mean := .int 0, itl_median := .int 0,
    rl_p95 := .int 0, rl_p99 := .int 0, ttft_p95 := .int 0, ttft_p99 := .int 0,
    itl_p95 := .int 0, itl_p99 := .int 0, isl := .int 0, osl := .int 0 }

/-- An entry with axis information but no dataset-loader information. -/
def entryC10 : PyVal :=
  .dict [("config", .dict [("strategy", .dict [("streams", .int 8)])])]

/-- The summary row extraction emits for entryC10. -/
def rowC10 : SummaryRow :=
  mkSummaryRow (.int 8, PyVal.none) [] zeroMetrics

/-- Witness for C10 as amended, at an entry with no loader information. -/
theorem empty_loader_zero_settings_witness :
    rowC10.prompt_tokens = .int 0 ∧ rowC10.prompt_tokens_stdev = .int 0 ∧
      rowC10.output_tokens = .int 0 ∧ rowC10.output_tokens_stdev = .int 0 ∧
      rowC10.processor = .str "" :=
  empty_loader_zero_settings.1 entryC10 rowC10 (by decide) (by decide)

/-- C8. Level filtering: a null level list returns the frame unchanged; a
missing axis column returns the frame unchanged (with a diagnostic only);
otherwise exactly the rows whose axis value is a member of the level list,
under exact value equality, are kept, as a sublist of the original rows (so
in original relative order), and an empty result is an ordinary frame. -/
theorem level_filtering (df : Frame) (axis_mode : String) :
    filter_data_by_levels df axis_mode Option.none = df ∧
    (∀ lv, axisField axis_mode ∉ df.cols →
      filter_data_by_levels df axis_mode (some lv) = df) ∧
    (∀ lv, axisField axis_mode ∈ df.cols →
      (filter_data_by_levels df axis_mode (some lv)).rows.Sublist df.rows ∧
      (filter_data_by_levels df axis_mode (some lv)).cols = df.cols ∧
      ∀ r, r ∈ (filter_data_by_levels df axis_mode (some lv)).rows ↔
        r ∈ df.rows ∧ pyIsin (cellGet r (axisField axis_mode)) lv = true) := by
  refine ⟨rfl, ?_, ?_⟩
  · intro lv hmem
    show (if axisField axis_mode ∈ df.cols then
        { df with rows := df.rows.filter (fun r => pyIsin (cellGet r (axisField axis_mode)) lv) }
      else df) = df
    rw [if_neg hmem]
  · intro lv hmem
    have hmain : filter_data_by_levels df axis_mode (some lv) =
        { df with rows := df.rows.filter (fun r => pyIsin (cellGet r (axisField axis_mode)) lv) } := by
      show (if axisField axis_mode ∈ df.cols then
          { df with rows := df.rows.filter (fun r => pyIsin (cellGet r (axisField axis_mode)) lv) }
        else df) = _
      rw [if_pos hmem]
    rw [hmain]
    refine ⟨List.filter_sublist df.rows, rfl, ?_⟩
    intro r
    simp [List.mem_filter]

/-- Rows with concurrency 1, 2, 4 and 8, in that order. -/
def frameC8 : Frame :=
  { cols := ["concurrency"],
    rows := [[("concurrency", .int 1)], [("concurrency", .int 2)],
             [("concurrency", .int 4)], [("concurrency", .int 8)]] }

/-- Witness for C8: filtering the 1/2/4/8 frame by levels 2 and 8 keeps
exactly the rows with concurrency 2 and 8, in original order. -/
theorem level_filtering_witness :
    (filter_data_by_levels frameC8 "concurrency" (some [PyVal.int 2, PyVal.int 8])).rows.Sublist
        frameC8.rows ∧
      (filter_data_by_levels frameC8 "concurrency" (some [PyVal.int 2, PyVal.int 8])).cols =
        frameC8.cols ∧
      (filter_data_by_levels frameC8 "concurrency" (some [PyVal.int 2, PyVal.int 8])).rows =
        [[("concurrency", .int 2)], [("concurrency", .int 8)]] :=
  ⟨((level_filtering frameC8 "concurrency").2.2 [PyVal.int 2, PyVal.int 8] (by decide)).1,
   ((level_filtering frameC8 "concurrency").2.2 [PyVal.int 2, PyVal.int 8] (by decide)).2.1,
   by decide⟩

theorem pyLookup_dictSet_self :
    ∀ (r : List (String × PyVal)) (k : String) (v : PyVal),
      pyLookup (dictSet r k v) k = some v
  | [], k, v => by simp [dictSet, pyLookup]
  | (k1, v1) :: rest, k, v => by
      by_cases h : k1 = k
      · simp [dictSet, h, pyLookup]
      · simp [dictSet, h, pyLookup, pyLookup_dictSet_self rest k v]

theorem pyLookup_dictSet_other :
    ∀ (r : List (String × PyVal)) (k k2 : String) (v : PyVal), k2 ≠ k →
      pyLookup (dictSet r k v) k2 = pyLookup r k2
  | [], k, k2, v, h => by
      have hk : k ≠ k2 := Ne.symm h
      simp [dictSet, pyLookup, hk]
  | (k1, v1) :: rest, k, k2, v, h => by
      have hk : k ≠ k2 := Ne.symm h
      by_cases h1 : k1 = k
      · subst h1
        simp [dictSet, pyLookup, hk]
      · by_cases h2 : k1 = k2
        · simp [dictSet, h1, pyLookup, h2, h]
        · simp [dictSet, h1, pyLookup, h2, pyLookup_dictSet_other rest k k2 v h]

theorem cellGet_dictSet_self (r : List (String × PyVal)) (k : String) (v : PyVal) :
    cellGet (dictSet r k v) k = v := by
  simp [cellGet, pyLookup_dictSet_self]

theorem cellGet_dictSet_other (r : List (String × PyVal)) (k k2 : String)
    (v : PyVal) (h : k2 ≠ k) : cellGet (dictSet r k v) k2 = cellGet r k2 := by
  simp [cellGet, pyLookup_dictSet_other r k k2 v h]

theorem setCol_cols (df : Frame) (name : String) (vals : List PyVal) :
    (setCol df name vals).cols =
      if name ∈ df.cols then df.cols else df.cols ++ [name] := rfl

theorem setCol_rows (df : Frame) (name : String) (vals : List PyVal) :
    (setCol df name vals).rows =
      List.zipWith (fun r v => dictSet r name v) df.rows vals := rfl

theorem mem_setCol_cols (df : Frame) (name : String) (vals : List PyVal)
    (x : String) (h : x ∈ df.cols) : x ∈ (setCol df name vals).cols := by
  rw [setCol_cols]
  by_cases hn : name ∈ df.cols
  · rw [if_pos hn]
    exact h
  · rw [if_neg hn]
    exact List.mem_append_left _ h

theorem not_mem_setCol_cols (df : Frame) (name : String) (vals : List PyVal)
    (x : String) (hx : x ∉ df.cols) (hne : x ≠ name) :
    x ∉ (setCol df name vals).cols := by
  rw [setCol_cols]
  by_cases hn : name ∈ df.cols
  · rw [if_pos hn]
    exact hx
  · rw [if_neg hn]
    intro hmem
    rcases List.mem_append.mp hmem with h | h
    · exact hx h
    · simp at h
      exact hne h

theorem map_zipWith_dictSet_preserve {α : Type} (key : String)
    (fn : List (String × PyVal) → α)
    (hfn : ∀ r v, fn (dictSet r key v) = fn r) :
    ∀ (rs : List (List (String × PyVal))) (vs : List PyVal),
      rs.length = vs.length →
      (List.zipWith (fun r v => dictSet r key v) rs vs).map fn = rs.map fn
  | [], [], _ => rfl
  | [], _ :: _, h => by simp at h
  | _ :: _, [], h => by simp at h
  | r :: rs, v :: vs, h => by
      simp only [List.zipWith_cons_cons, List.map_cons, hfn]
      rw [map_zipWith_dictSet_preserve key fn hfn rs vs (by simpa using h)]

theorem map_zipWith_dictSet_self (key : String) :
    ∀ (rs : List (List (String × PyVal))) (vs : List PyVal),
      rs.length = vs.length →
      (List.zipWith (fun r v => dictSet r key v) rs vs).map
        (fun r => cellGet r key) = vs
  | [], [], _ => rfl
  | [], _ :: _, h => by simp at h
  | _ :: _, [], h => by simp at h
  | r :: rs, v :: vs, h => by
      simp only [List.zipWith_cons_cons, List.map_cons, cellGet_dictSet_self]
      rw [map_zipWith_dictSet_self key rs vs (by simpa using h)]

theorem colVals_setCol_self (df : Frame) (vals : List PyVal) (key : String)
    (hlen : df.rows.length = vals.length) :
    colVals (setCol df key vals) key = vals := by
  unfold colVals
  rw [setCol_rows]
  exact map_zipWith_dictSet_self key df.rows vals hlen

theorem rows_map_setCol_preserve {α : Type} (df : Frame) (vals : List PyVal)
    (key : String) (fn : List (String × PyVal) → α)
    (hfn : ∀ r v, fn (dictSet r key v) = fn r)
    (hlen : df.rows.length = vals.length) :
    (setCol df key vals).rows.map fn = df.rows.map fn := by
  rw [setCol_rows]
  exact map_zipWith_dictSet_preserve key fn hfn df.rows vals hlen

/-- C9. Idempotence of enrichment: whenever create_dataset_identifier
succeeds, running it a second time succeeds as well and yields the same
dataset_id column values as the single run (in every branch: summary-row
columns, per-request columns, and the untouched-frame case). -/
theorem dataset_identifier_idempotent (f g : Frame)
    (h : create_dataset_identifier f = .ok g) :
    ∃ k, create_dataset_identifier g = .ok k ∧
      colVals k "dataset_id" = colVals g "dataset_id" := by
  by_cases h1 : "prompt_tokens" ∈ f.cols
  · by_cases h2 : "output_tokens" ∈ f.cols
    · unfold create_dataset_identifier at h
      rw [if_pos h1, if_pos h2] at h
      simp only [Except.ok.injEq] at h
      subst h
      set FN := fun r => PyVal.str
        (pyStr (cellGet r "prompt_tokens") ++ "-" ++ pyStr (cellGet r "output_tokens"))
        with hFNdef
      set vals := f.rows.map FN with hvalsdef
      set g2 := setCol f "dataset_id" vals with hg2def
      have hfn : ∀ r v, FN (dictSet r "dataset_id" v) = FN r := by
        intro r v
        rw [hFNdef]
        show PyVal.str _ = PyVal.str _
        rw [cellGet_dictSet_other r "dataset_id" "prompt_tokens" v (by decide),
            cellGet_dictSet_other r "dataset_id" "output_tokens" v (by decide)]
      have hlen : f.rows.length = vals.length := by
        rw [hvalsdef, List.length_map]
      have hlen2 : g2.rows.length = (g2.rows.map FN).length := by
        rw [List.length_map]
      have hg1 : "prompt_tokens" ∈ g2.cols := mem_setCol_cols f "dataset_id" vals _ h1
      have hg2c : "output_tokens" ∈ g2.cols := mem_setCol_cols f "dataset_id" vals _ h2
      refine ⟨setCol g2 "dataset_id" (g2.rows.map FN), ?_, ?_⟩
      · unfold create_dataset_identifier
        rw [if_pos hg1, if_pos hg2c, hFNdef]
      · rw [colVals_setCol_self g2 (g2.rows.map FN) "dataset_id" hlen2, hg2def,
            rows_map_setCol_preserve f vals "dataset_id" FN hfn hlen,
            colVals_setCol_self f vals "dataset_id" hlen]
    · unfold create_dataset_identifier at h
      rw [if_pos h1, if_neg h2] at h
      exact absurd h (by simp)
  · by_cases h3 : "dataset_prompt_tokens" ∈ f.cols
    · by_cases h4 : "dataset_output_tokens" ∈ f.cols
      · unfold create_dataset_identifier at h
        rw [if_neg h1, if_pos h3, if_pos h4] at h
        simp only [Except.ok.injEq] at h
        subst h
        set FN := fun r => PyVal.str
          (pyStr (cellGet r "dataset_prompt_tokens") ++ "-" ++
            pyStr (cellGet r "dataset_output_tokens"))
          with hFNdef
        set vals := f.rows.map FN with hvalsdef
        set g2 := setCol f "dataset_id" vals with hg2def
        have hfn : ∀ r v, FN (dictSet r "dataset_id" v) = FN r := by
          intro r v
          rw [hFNdef]
          show PyVal.str _ = PyVal.str _
          rw [cellGet_dictSet_other r "dataset_id" "dataset_prompt_tokens" v (by decide),
              cellGet_dictSet_other r "dataset_id" "dataset_output_tokens" v (by decide)]
        have hlen : f.rows.length = vals.length := by
          rw [hvalsdef, List.length_map]
        have hlen2 : g2.rows.length = (g2.rows.map FN).length := by
          rw [List.length_map]
        have hng : "prompt_tokens" ∉ g2.cols :=
          not_mem_setCol_cols f "dataset_id" vals _ h1 (by decide)
        have hg3 : "dataset_prompt_tokens" ∈ g2.cols :=
          mem_setCol_cols f "dataset_id" vals _ h3
        have hg4 : "dataset_output_tokens" ∈ g2.cols :=
          mem_setCol_cols f "dataset_id" vals _ h4
        refine ⟨setCol g2 "dataset_id" (g2.rows.map FN), ?_, ?_⟩
        · unfold create_dataset_identifier
          rw [if_neg hng, if_pos hg3, if_pos hg4, hFNdef]
        · rw [colVals_setCol_self g2 (g2.rows.map FN) "dataset_id" hlen2, hg2def,
              rows_map_setCol_preserve f vals "dataset_id" FN hfn hlen,
              colVals_setCol_self f vals "dataset_id" hlen]
      · unfold create_dataset_identifier at h
        rw [if_neg h1, if_pos h3, if_neg h4] at h
        exact absurd h (by simp)
    · unfold create_dataset_identifier at h
      rw [if_neg h1, if_neg h3] at h
      simp only [Except.ok.injEq] at h
      subst h
      refine ⟨f, ?_, rfl⟩
      unfold create_dataset_identifier
      rw [if_neg h1, if_neg h3]

/-- A one-row frame with prompt and output token columns. -/
def frameC9 : Frame :=
  { cols := ["prompt_tokens", "output_tokens"],
    rows := [[("prompt_tokens", .int 512), ("output_tokens", .int 256)]] }

/-- The frame create_dataset_identifier produces from frameC9. -/
def frameC9e : Frame := setCol frameC9 "dataset_id" [.str "512-256"]

/-- Witness for C9 at a one-row frame with prompt and output token columns. -/
theorem dataset_identifier_idempotent_witness :
    ∃ k, create_dataset_identifier frameC9e = .ok k ∧
      colVals k "dataset_id" = colVals frameC9e "dataset_id" :=
  dataset_identifier_idempotent frameC9 frameC9e (by decide)
